import Mathlib

/-!
# Authentication controller

A shallow embedding of `backend/controllers/authController.js`:
`generateToken`, `registerUser`, `loginUser` and `getMe`.

Each handler is an `async` function whose body is one `try { ... } catch`.
The `try` block is embedded as a function returning either the response it
sends or the error it throws, together with the store it leaves behind and the
store operations it issued; the handler proper adds the `catch` clause.

Conventions.
* The handlers are embedded on request bodies whose fields are strings or
  absent (`undefined` is `none`); there `!field` is `falsy`.  The guards of
  `registerUser` are embedded a second time on arbitrary parsed JSON values
  (`registerUserGuards`).
* `password.length` is the JavaScript string length, counted in UTF-16 code
  units (`jsLength`).
* Time is the clock of the token library, in whole seconds.
* The Mongoose model `User` (`../models/User`) and the token-checking
  middleware are not part of the sources; the operations of theirs that the
  controller relies on are modelled from the specification and marked so.
-/

namespace AuthController

/-! ## Values -/

/-- A thrown JavaScript error.  The handlers read only its `message`. -/
structure JsError where
  message : String
deriving DecidableEq, Repr

/-- A signed token as `jsonwebtoken` builds it from the payload `{ id }` and
the option `expiresIn`: the payload claims `id`, `iat`, `exp`, and the
signature, abstracted to the key it was computed with (`none`: unsigned). -/
structure Token where
  id : Nat
  iat : Nat
  exp : Nat
  sig : Option String
deriving DecidableEq, Repr

/-- Leaves of a response body. -/
inductive Scalar where
  | str (s : String)
  | num (n : Nat)
  | bool (b : Bool)
  | jwt (t : Token)
deriving DecidableEq, Repr

/-- Values of a response body: a leaf, or an object of leaves. -/
inductive JVal where
  | val (v : Scalar)
  | obj (fields : List (String × Scalar))
deriving DecidableEq, Repr

/-- What `res.status(code).json(body)` sends. -/
structure Response where
  status : Nat
  body : List (String × JVal)
deriving DecidableEq, Repr

/-- A document of the `users` collection.  `password` holds what is stored,
and is the field `select('+password')` loads. -/
structure User where
  _id : Nat
  full_name : String
  email : String
  username : String
  password : String
  created_at : Nat
deriving DecidableEq, Repr

/-- Body of `POST /api/auth/register` when each field is a string or absent.
Bodies with other JSON values are `RawRegisterBody`. -/
structure RegisterBody where
  full_name : Option String
  email : Option String
  username : Option String
  password : Option String
deriving DecidableEq, Repr

/-- Body of `POST /api/auth/login`. -/
structure LoginBody where
  identifier : Option String
  password : Option String
deriving DecidableEq, Repr

/-- The part of the request `getMe` reads: `req.user`, attached by the
middleware, `none` when it is absent. -/
structure MeRequest where
  user : Option User
deriving DecidableEq, Repr

/-- JavaScript `!v` for a value that is a string or `undefined`. -/
def falsy : Option String → Bool
  | none => true
  | some s => decide (s = "")

/-- Number of UTF-16 code units of a character. -/
def utf16Units (c : Char) : Nat :=
  if c.val.toNat < 65536 then 1 else 2

/-- JavaScript `s.length`. -/
def jsLength (s : String) : Nat :=
  (s.data.map utf16Units).sum

/-! ## Environment and store -/

/-- Modelled from the spec: the password hashing of the `User` model (its
pre-save hook and its `comparePassword` method), which is not in the sources.
The spec asks for a one-way, salted hash whose stored form is never the
original secret, and for a comparison function of the same algorithm. -/
structure PasswordHasher where
  hash : String → String → String
  compare : String → String → Bool
  hash_ne : ∀ salt password, hash salt password ≠ password

/-- What a handler reads from its surroundings: `process.env.JWT_SECRET`, the
clock in seconds, and the salt drawn for a new password hash. -/
structure Env where
  JWT_SECRET : Option String
  now : Nat
  salt : String
deriving DecidableEq, Repr

/-- Modelled from the spec: the user record store behind the `User` model,
which is not in the sources: the records in insertion order, and `fault`, the
error every operation rejects with while the storage is unavailable. -/
structure Db where
  users : List User
  fault : Option JsError
deriving DecidableEq, Repr

/-- Store operations a handler issues. -/
inductive StoreOp where
  | findOne (email username : String)
  | create (email username : String)
deriving DecidableEq, Repr

/-- Modelled from the spec: `User.findOne({ $or: [{ email }, { username }] })`,
the lookup-by-identifier of the store, which is not in the sources: the first
record whose email or whose username matches, `none` (`null`) when there is
none. -/
def findOne (db : Db) (email username : String) : Except JsError (Option User) :=
  match db.fault with
  | some e => .error e
  | none => .ok (db.users.find? (fun u => decide (u.email = email) || decide (u.username = username)))

/-- An identifier no record of the list carries. -/
def freshId (users : List User) : Nat :=
  (users.map (fun u => u._id)).foldr max 0 + 1

/-- Modelled from the spec: `User.create({ full_name, email, username, password })`
of the `User` model, which is not in the sources: it enforces the uniqueness
constraint on email and on username, hashes the password before persisting,
assigns the identifier and the creation timestamp, and persists one record. -/
def create (H : PasswordHasher) (env : Env) (db : Db)
    (full_name email username password : String) : Except JsError User × Db :=
  match db.fault with
  | some e => (.error e, db)
  | none =>
    if db.users.any (fun u => decide (u.email = email) || decide (u.username = username)) then
      (.error ⟨"E11000 duplicate key error"⟩, db)
    else
      let user : User :=
        { _id := freshId db.users
          full_name := full_name
          email := email
          username := username
          password := H.hash env.salt password
          created_at := env.now }
      (.ok user, { db with users := db.users ++ [user] })

/-- The record `create` persists. -/
def createdUser (H : PasswordHasher) (env : Env) (db : Db)
    (full_name email username password : String) : User :=
  { _id := freshId db.users, full_name := full_name, email := email, username := username,
    password := H.hash env.salt password, created_at := env.now }

/-! ## Tokens -/

/-- Seconds in the `expiresIn: '30d'` window. -/
def thirtyDays : Nat := 30 * 24 * 60 * 60

/-- The function `generateToken`: `jwt.sign({ id }, process.env.JWT_SECRET,
{ expiresIn: '30d' })`.  The library throws when the secret is `undefined` or
empty. -/
def generateToken (env : Env) (id : Nat) : Except JsError Token :=
  match env.JWT_SECRET with
  | none => .error ⟨"secretOrPrivateKey must have a value"⟩
  | some key =>
    if key = "" then .error ⟨"secretOrPrivateKey must have a value"⟩
    else .ok { id := id, iat := env.now, exp := env.now + thirtyDays, sig := some key }

/-- Failure of token validation. -/
inductive TokenError where
  | AuthenticationError
deriving DecidableEq, Repr

/-- Modelled from the spec: `ValidateToken(token)`, done by the middleware in
front of `getMe`, which is not in the sources: it fails when the token is
unsigned or signed with another key than the server-held secret, or when its
expiry has been reached, and returns the identifier the token encodes
otherwise.  A malformed token is no `Token`. -/
def ValidateToken (secret : Option String) (clock : Nat) (token : Token) :
    Except TokenError Nat :=
  match secret, token.sig with
  | some key, some signed =>
    if key = "" then .error .AuthenticationError
    else if signed ≠ key then .error .AuthenticationError
    else if clock ≥ token.exp then .error .AuthenticationError
    else .ok token.id
  | _, _ => .error .AuthenticationError

/-! ## Handlers -/

/-- What the `try` block of a handler leaves behind: the response it sent or
the error it threw, the store afterwards, and the store operations issued. -/
structure Attempt where
  result : Except JsError Response
  db : Db
  ops : List StoreOp

/-- What a handler leaves behind: the response, the store afterwards, the
store operations issued, and the lines written with `console.error`. -/
structure Outcome where
  res : Response
  db : Db
  ops : List StoreOp
  console : List (String × JsError)

/-- The body `{ success: false, message }` sent with a status. -/
def failure (status : Nat) (message : String) : Response :=
  { status := status
    body := [("success", .val (.bool false)), ("message", .val (.str message))] }

/-- The body `{ success: false, message, error: error.message }` sent with
status 500 by the `catch` clauses. -/
def serverError (message : String) (error : JsError) : Response :=
  { status := 500
    body := [("success", .val (.bool false)), ("message", .val (.str message)),
             ("error", .val (.str error.message))] }

/-- Lines 65-88 of `registerUser`: create the record, sign a token for it and
send the 201 response. -/
def registerUserCreate (H : PasswordHasher) (env : Env) (db : Db)
    (full_name email username password : String) (ops : List StoreOp) : Attempt :=
  match create H env db full_name email username password with
  | (.error e, db1) => { result := .error e, db := db1, ops := ops ++ [.create email username] }
  | (.ok user, db1) =>
    match generateToken env user._id with
    | .error e => { result := .error e, db := db1, ops := ops ++ [.create email username] }
    | .ok token =>
      { result := .ok
          { status := 201
            body := [("success", .val (.bool true)),
                     ("message", .val (.str "User registered successfully")),
                     ("data", .obj [("_id", .num user._id),
                                    ("full_name", .str user.full_name),
                                    ("email", .str user.email),
                                    ("username", .str user.username),
                                    ("created_at", .num user.created_at),
                                    ("token", .jwt token)])] }
        db := db1
        ops := ops ++ [.create email username] }

/-- The `try` block of `registerUser`.  Past the first guard every field is a
non-empty string. -/
def registerUserTry (H : PasswordHasher) (env : Env) (db : Db) (body : RegisterBody) : Attempt :=
  if falsy body.full_name || falsy body.email || falsy body.username || falsy body.password then
    { result := .ok (failure 400 "Please provide all required fields"), db := db, ops := [] }
  else
    let full_name := body.full_name.getD ""
    let email := body.email.getD ""
    let username := body.username.getD ""
    let password := body.password.getD ""
    if jsLength password < 6 then
      { result := .ok (failure 400 "Password must be at least 6 characters long"), db := db, ops := [] }
    else
      match findOne db email username with
      | .error e => { result := .error e, db := db, ops := [.findOne email username] }
      | .ok none =>
        registerUserCreate H env db full_name email username password [.findOne email username]
      | .ok (some userExists) =>
        if userExists.email = email then
          { result := .ok (failure 400 "Email already registered"), db := db,
            ops := [.findOne email username] }
        else if userExists.username = username then
          { result := .ok (failure 400 "Username already taken"), db := db,
            ops := [.findOne email username] }
        else
          registerUserCreate H env db full_name email username password [.findOne email username]

/-- The handler `registerUser`. -/
def registerUser (H : PasswordHasher) (env : Env) (db : Db) (body : RegisterBody) : Outcome :=
  let a := registerUserTry H env db body
  match a.result with
  | .ok res => { res := res, db := a.db, ops := a.ops, console := [] }
  | .error error =>
    { res := serverError "Server error during registration" error
      db := a.db, ops := a.ops, console := [("Registration error:", error)] }

/-- The `try` block of `loginUser`. -/
def loginUserTry (H : PasswordHasher) (env : Env) (db : Db) (body : LoginBody) : Attempt :=
  if falsy body.identifier || falsy body.password then
    { result := .ok (failure 400 "Please provide username/email and password"), db := db, ops := [] }
  else
    let identifier := body.identifier.getD ""
    let password := body.password.getD ""
    match findOne db identifier identifier with
    | .error e => { result := .error e, db := db, ops := [.findOne identifier identifier] }
    | .ok none =>
      { result := .ok (failure 401 "Invalid credentials"), db := db,
        ops := [.findOne identifier identifier] }
    | .ok (some user) =>
      if !H.compare password user.password then
        { result := .ok (failure 401 "Invalid credentials"), db := db,
          ops := [.findOne identifier identifier] }
      else
        match generateToken env user._id with
        | .error e => { result := .error e, db := db, ops := [.findOne identifier identifier] }
        | .ok token =>
          { result := .ok
              { status := 200
                body := [("success", .val (.bool true)),
                         ("message", .val (.str "Login successful")),
                         ("data", .obj [("_id", .num user._id),
                                        ("full_name", .str user.full_name),
                                        ("email", .str user.email),
                                        ("username", .str user.username),
                                        ("token", .jwt token)])] }
            db := db
            ops := [.findOne identifier identifier] }

/-- The handler `loginUser`. -/
def loginUser (H : PasswordHasher) (env : Env) (db : Db) (body : LoginBody) : Outcome :=
  let a := loginUserTry H env db body
  match a.result with
  | .ok res => { res := res, db := a.db, ops := a.ops, console := [] }
  | .error error =>
    { res := serverError "Server error during login" error
      db := a.db, ops := a.ops, console := [("Login error:", error)] }

/-- The `try` block of `getMe`.  Reading `user._id` of an absent `req.user`
throws a `TypeError`, whose message text (`typeError`) is the engine's. -/
def getMeTry (typeError : String) (req : MeRequest) : Except JsError Response :=
  match req.user with
  | none => .error ⟨typeError⟩
  | some user =>
    .ok { status := 200
          body := [("success", .val (.bool true)),
                   ("data", .obj [("_id", .num user._id),
                                  ("full_name", .str user.full_name),
                                  ("email", .str user.email),
                                  ("username", .str user.username),
                                  ("created_at", .num user.created_at)])] }

/-- The handler `getMe`: the response and the lines written with
`console.error`. -/
def getMe (typeError : String) (req : MeRequest) : Response × List (String × JsError) :=
  match getMeTry typeError req with
  | .ok res => (res, [])
  | .error error => (serverError "Server error retrieving user data" error, [("Get user error:", error)])

/-! ## Request bodies as parsed JSON

`registerUser` is a public route: the fields of `req.body` are whatever JSON
the client sent, not only strings.  The two guards of lines 27-43 are embedded
a second time on such values. -/

/-- A field of `req.body` as the JSON body parser leaves it: `undefined` for a
field that is absent, or a JSON value.  A number is reduced to its integer
value, an array to its length, and `obj` is an object without a member
`length`. -/
inductive JsValue where
  | undefined
  | null
  | bool (b : Bool)
  | num (n : Int)
  | str (s : String)
  | arr (length : Nat)
  | obj
deriving DecidableEq, Repr

/-- The destructured `req.body` of `registerUser`, fields untyped. -/
structure RawRegisterBody where
  full_name : JsValue
  email : JsValue
  username : JsValue
  password : JsValue
deriving DecidableEq, Repr

/-- JavaScript `!v`: true for `undefined`, `null`, `false`, `0` and the empty
string. -/
def jsNot : JsValue → Bool
  | .undefined => true
  | .null => true
  | .bool b => !b
  | .num n => decide (n = 0)
  | .str s => decide (s = "")
  | .arr _ => false
  | .obj => false

/-- JavaScript `v.length < 6` for a truthy `v`: `v.length` is the length of a
string or of an array and `undefined` for every other truthy value, and
`undefined < 6` is false. -/
def lengthBelowSix : JsValue → Bool
  | .str s => decide (jsLength s < 6)
  | .arr length => decide (length < 6)
  | _ => false

/-- Lines 27-43 of `registerUser`: the response of the guard that returns,
`none` when both guards are passed. -/
def registerUserGuards (body : RawRegisterBody) : Option Response :=
  if jsNot body.full_name || jsNot body.email || jsNot body.username || jsNot body.password then
    some { status := 400
           body := [("success", .val (.bool false)),
                    ("message", .val (.str "Please provide all required fields"))] }
  else if lengthBelowSix body.password then
    some { status := 400
           body := [("success", .val (.bool false)),
                    ("message", .val (.str "Password must be at least 6 characters long"))] }
  else none

/-- A field that is a string or absent, as a JSON value. -/
def ofField : Option String → JsValue
  | none => .undefined
  | some s => .str s

/-- A body whose fields are strings or absent, as parsed JSON. -/
def RegisterBody.raw (body : RegisterBody) : RawRegisterBody :=
  { full_name := ofField body.full_name
    email := ofField body.email
    username := ofField body.username
    password := ofField body.password }

/-! ## Reading responses -/

/-- The keys of the `data` object of a response body, when it has one. -/
def dataKeys (res : Response) : Option (List String) :=
  match res.body.lookup "data" with
  | some (.obj fields) => some (fields.map Prod.fst)
  | _ => none

/-! ## Concrete data used in the examples -/

/-- A stand-in hasher: the stored form is the salt, a separator and the
password; comparison checks the part after the salt. -/
def demoHasher : PasswordHasher where
  hash salt password := salt ++ "$" ++ password
  compare password stored := ("$" ++ password).data.isSuffixOf stored.data
  hash_ne := by
    intro salt password h
    have := congrArg String.length h
    simp [String.length_append] at this
    exact absurd this.2 (by decide)

/-- An environment with a configured secret. -/
def demoEnv : Env := { JWT_SECRET := some "s3cr3t", now := 1000, salt := "na" }

/-- The registration of scenario A. -/
def annBody : RegisterBody :=
  { full_name := some "Ann Lee", email := some "ann@x.com", username := some "annlee",
    password := some "secret1" }

/-- Ann as stored by scenario A in an empty store. -/
def ann : User :=
  { _id := 1, full_name := "Ann Lee", email := "ann@x.com", username := "annlee",
    password := "na$secret1", created_at := 1000 }

/-- A second registration, of a fresh email and username. -/
def bobBody : RegisterBody :=
  { full_name := some "Bob Ray", email := some "bob@x.com", username := some "bobray",
    password := some "hunter22" }

/-- Ann's registration with a password of five characters. -/
def shortBody : RegisterBody :=
  { full_name := some "Ann Lee", email := some "ann@x.com", username := some "annlee",
    password := some "12345" }

/-- Three characters outside the Basic Multilingual Plane (U+1F600 thrice). -/
def threeAstral : String :=
  String.mk [Char.ofNat 128512, Char.ofNat 128512, Char.ofNat 128512]

/-- Bob as stored by an earlier registration. -/
def bob : User :=
  { _id := 1, full_name := "Bob Ray", email := "bob@x.com", username := "bobray",
    password := "na$hunter22", created_at := 900 }

/-- A store whose storage engine is unreachable. -/
def downDb : Db :=
  { users := [], fault := some ⟨"connect ECONNREFUSED 127.0.0.1:27017"⟩ }

/-- A store whose storage engine timed out. -/
def slowDb : Db :=
  { users := [], fault := some ⟨"operation timed out"⟩ }

/-- Ann, registered after `bob` under a username that is Bob's email
address. -/
def annAlias : User :=
  { _id := 2, full_name := "Ann Lee", email := "ann@x.com", username := "bob@x.com",
    password := "na$secret1", created_at := 1000 }

end AuthController

/-! # Client service

A shallow embedding of `frontend/src/services/api.js`.  Every function takes
the state of `localStorage` and returns its result with the state afterwards.
The outcome of the HTTP call a function awaits is an argument.  Response
bodies are typed as the routes declare them; a field that is absent is
`none`. -/

namespace Api

open AuthController

/-- The state of `localStorage`: the entries, each a key and a string value. -/
abbrev Storage := List (String × String)

/-- `localStorage.getItem(key)`: the value of the entry, `none` (`null`) when
there is no entry. -/
def getItem (ls : Storage) (key : String) : Option String :=
  ls.lookup key

/-- `localStorage.removeItem(key)`. -/
def removeItem (ls : Storage) (key : String) : Storage :=
  ls.filter (fun entry => !decide (entry.1 = key))

/-- `localStorage.setItem(key, value)`. -/
def setItem (ls : Storage) (key value : String) : Storage :=
  (key, value) :: removeItem ls key

/-- The built-ins `JSON.stringify` and `JSON.parse`, taken as given. -/
structure JsonBuiltins where
  stringify : JVal → String
  parse : String → Except JsError JVal

/-- The object `response.data.data` of the auth routes. -/
structure AuthData where
  _id : String
  full_name : String
  email : String
  username : String
  created_at : Option String
  token : Option String
deriving DecidableEq, Repr

/-- The object `response.data` of the auth routes. -/
structure ApiBody where
  success : Bool
  message : Option String
  data : Option AuthData
deriving DecidableEq, Repr

/-- An error caught by a `catch` clause, reduced to what the clause reads:
`error.response?.data`, `none` when the error has no response (a network
failure, or an error thrown by the function itself). -/
structure CaughtError where
  responseData : Option ApiBody
deriving DecidableEq, Repr

/-- What a function throws to its caller: `error.response?.data`, or the
fallback object `{ message }`. -/
inductive Thrown where
  | responseData (body : ApiBody)
  | fallback (message : String)
deriving DecidableEq, Repr

/-- The expression `error.response?.data || { message }`. -/
def rethrow (error : CaughtError) (message : String) : Thrown :=
  match error.responseData with
  | some body => .responseData body
  | none => .fallback message

/-- The object written under `user`: `_id`, `full_name`, `email`, `username`
of `response.data.data`. -/
def snapshot (data : AuthData) : JVal :=
  .obj [("_id", .str data._id), ("full_name", .str data.full_name),
        ("email", .str data.email), ("username", .str data.username)]

/-- The `try` block shared, line for line, by `register` and `login`, after
`axios.post` has resolved with `response.data = body`: store the token and the
snapshot when `response.data.success && response.data.data.token`, and return
`response.data`.  Reading `token` of an absent `response.data.data` throws. -/
def storeSession (J : JsonBuiltins) (body : ApiBody) (ls : Storage) : Except CaughtError ApiBody × Storage :=
  if body.success then
    match body.data with
    | none => (.error ⟨none⟩, ls)
    | some data =>
      if !falsy data.token then
        let ls1 := setItem ls "token" (data.token.getD "")
        let ls2 := setItem ls1 "user" (J.stringify (snapshot data))
        (.ok body, ls2)
      else
        (.ok body, ls)
  else
    (.ok body, ls)

/-- The function `register`; `posted` is the outcome of
`axios.post('/auth/register', userData)`. -/
def register (J : JsonBuiltins) (posted : Except CaughtError ApiBody) (ls : Storage) :
    Except Thrown ApiBody × Storage :=
  let attempt : Except CaughtError ApiBody × Storage :=
    match posted with
    | .error error => (.error error, ls)
    | .ok body => storeSession J body ls
  match attempt with
  | (.ok body, ls1) => (.ok body, ls1)
  | (.error error, ls1) => (.error (rethrow error "Registration failed"), ls1)

/-- The function `login`; `posted` is the outcome of
`axios.post('/auth/login', credentials)`. -/
def login (J : JsonBuiltins) (posted : Except CaughtError ApiBody) (ls : Storage) :
    Except Thrown ApiBody × Storage :=
  let attempt : Except CaughtError ApiBody × Storage :=
    match posted with
    | .error error => (.error error, ls)
    | .ok body => storeSession J body ls
  match attempt with
  | (.ok body, ls1) => (.ok body, ls1)
  | (.error error, ls1) => (.error (rethrow error "Login failed"), ls1)

/-- The function `getCurrentUser`; `fetched token` is the outcome of
`axios.get('/auth/me')` sent with the header `Authorization: Bearer token`. -/
def getCurrentUser (fetched : String → Except CaughtError ApiBody) (ls : Storage) :
    Except Thrown ApiBody × Storage :=
  let token := getItem ls "token"
  let attempt : Except CaughtError ApiBody :=
    if falsy token then .error ⟨none⟩
    else fetched (token.getD "")
  match attempt with
  | .ok body => (.ok body, ls)
  | .error error =>
    let ls1 := removeItem ls "token"
    let ls2 := removeItem ls1 "user"
    (.error (rethrow error "Failed to get user data"), ls2)

/-- The function `logout`. -/
def logout (ls : Storage) : Storage :=
  removeItem (removeItem ls "token") "user"

/-- The function `isAuthenticated`: `!!localStorage.getItem('token')`. -/
def isAuthenticated (ls : Storage) : Bool × Storage :=
  (!falsy (getItem ls "token"), ls)

/-- The function `getStoredUser`: `user ? JSON.parse(user) : null`. -/
def getStoredUser (J : JsonBuiltins) (ls : Storage) : Except JsError (Option JVal) × Storage :=
  let user := getItem ls "user"
  if falsy user then (.ok none, ls)
  else
    match J.parse (user.getD "") with
    | .ok value => (.ok (some value), ls)
    | .error e => (.error e, ls)

/-! ## Concrete data used in the examples -/

/-- A string between double quotes, double quotes and backslashes escaped. -/
def quoted (s : String) : List Char :=
  Char.ofNat 34 ::
    (s.data.flatMap (fun c =>
      if c = Char.ofNat 34 ∨ c = Char.ofNat 92 then [Char.ofNat 92, c] else [c]))
    ++ [Char.ofNat 34]

/-- The members of an object, written `"key":"value"` and separated by commas. -/
def members : List (String × Scalar) → List Char
  | [] => []
  | [(key, .str value)] => quoted key ++ [':'] ++ quoted value
  | (key, .str value) :: rest => quoted key ++ [':'] ++ quoted value ++ [','] ++ members rest
  | _ :: rest => members rest

/-- State of the reader: inside a string or not, after a backslash or not, the
string being read, and the strings read. -/
structure ReadState where
  inString : Bool
  escaped : Bool
  current : List Char
  strings : List String

/-- One step of the reader. -/
def readChar (st : ReadState) (c : Char) : ReadState :=
  if st.inString then
    if st.escaped then { st with escaped := false, current := st.current ++ [c] }
    else if c = Char.ofNat 92 then { st with escaped := true }
    else if c = Char.ofNat 34 then
      { st with inString := false, current := [], strings := st.strings ++ [String.mk st.current] }
    else { st with current := st.current ++ [c] }
  else if c = Char.ofNat 34 then { st with inString := true, current := [] }
  else st

/-- Keys and values from the strings read, in turn. -/
def pairUp : List String → List (String × Scalar)
  | key :: value :: rest => (key, .str value) :: pairUp rest
  | _ => []

/-- A stand-in for the JSON built-ins on objects whose values are strings. -/
def demoJson : JsonBuiltins where
  stringify value :=
    match value with
    | .obj fields => String.mk ([Char.ofNat 123] ++ members fields ++ [Char.ofNat 125])
    | .val _ => "null"
  parse text :=
    let st := text.data.foldl readChar ⟨false, false, [], []⟩
    if st.inString then .error ⟨"Unexpected end of JSON input"⟩
    else .ok (.obj (pairUp st.strings))

/-- The `data` of the response to Ann's registration. -/
def annData : AuthData :=
  { _id := "65f0c1", full_name := "Ann Lee", email := "ann@x.com", username := "annlee",
    created_at := some "2024-03-12T20:00:00.000Z", token := some "eyJhbGciOi.eyJpZCI6.c2ln" }

/-- The body of the response to Ann's registration. -/
def annRegistered : ApiBody :=
  { success := true, message := some "User registered successfully", data := some annData }

/-- The body of a rejected login. -/
def invalidCredentials : ApiBody :=
  { success := false, message := some "Invalid credentials", data := none }

/-- The body of the response to Ann's profile request. -/
def annProfile : ApiBody :=
  { success := true, message := none,
    data := some { _id := "65f0c1", full_name := "Ann Lee", email := "ann@x.com",
                   username := "annlee", created_at := some "2024-03-12T20:00:00.000Z",
                   token := none } }

/-- The body of a rejected profile request. -/
def tokenRejected : ApiBody :=
  { success := false, message := some "Not authorized, token failed", data := none }

/-- A `localStorage` holding an earlier session and an unrelated entry. -/
def earlierSession : Storage :=
  [("theme", "dark"), ("token", "old.token.value"), ("user", "stale")]

end Api

/-! # Registration page

A shallow embedding of `validateForm` and of the request `handleSubmit` sends,
from `frontend/src/pages/Register.js`. -/

namespace RegisterPage

open AuthController

/-- The form state `formData`; every field is the string of its input. -/
structure FormData where
  full_name : String
  email : String
  username : String
  password : String
  confirmPassword : String
deriving DecidableEq, Repr

/-- White space and line terminators, the characters `String.prototype.trim`
strips. -/
def isTrimmed (c : Char) : Bool :=
  let n := c.val.toNat
  n = 9 || n = 10 || n = 11 || n = 12 || n = 13 || n = 32 || n = 160 || n = 5760
    || (8192 ≤ n && n ≤ 8202) || n = 8232 || n = 8233 || n = 8239 || n = 8287
    || n = 12288 || n = 65279

/-- JavaScript `s.trim()`. -/
def jsTrim (s : String) : String :=
  ⟨((s.data.dropWhile isTrimmed).reverse.dropWhile isTrimmed).reverse⟩

/-- The character classes of the email pattern. -/
inductive CharClass where
  | word
  | dotOrDash
  | lit (c : Char)
deriving DecidableEq, Repr

/-- Whether a character belongs to a class: `\w` is `[A-Za-z0-9_]`. -/
def CharClass.test : CharClass → Char → Bool
  | .word, c => c.isAlphanum || c = '_'
  | .dotOrDash, c => c = '.' || c = '-'
  | .lit x, c => c = x

/-- Regular expressions over character classes. -/
inductive Pattern where
  | never
  | empty
  | cls (k : CharClass)
  | seq (a b : Pattern)
  | alt (a b : Pattern)
  | star (a : Pattern)
deriving Repr

/-- The quantifier `?`. -/
def Pattern.opt (a : Pattern) : Pattern := .alt .empty a

/-- The quantifier `+`. -/
def Pattern.plus (a : Pattern) : Pattern := .seq a (.star a)

/-- Whether a pattern matches the empty string. -/
def Pattern.nullable : Pattern → Bool
  | .never => false
  | .empty => true
  | .cls _ => false
  | .seq a b => a.nullable && b.nullable
  | .alt a b => a.nullable || b.nullable
  | .star _ => true

/-- The pattern matching what may follow the character `c`. -/
def Pattern.deriv : Pattern → Char → Pattern
  | .never, _ => .never
  | .empty, _ => .never
  | .cls k, c => if k.test c then .empty else .never
  | .seq a b, c =>
    if a.nullable then .alt (.seq (a.deriv c) b) (b.deriv c) else .seq (a.deriv c) b
  | .alt a b, c => .alt (a.deriv c) (b.deriv c)
  | .star a, c => .seq (a.deriv c) (.star a)

/-- The method `test` of a pattern anchored with `^` and `$`. -/
def Pattern.test (r : Pattern) (s : String) : Bool :=
  (s.data.foldl Pattern.deriv r).nullable

/-- The pattern `/^\w+([.-]?\w+)*@\w+([.-]?\w+)*(\.\w{2,3})+$/`. -/
def emailPattern : Pattern :=
  .seq (Pattern.plus (.cls .word))
    (.seq (.star (.seq (Pattern.opt (.cls .dotOrDash)) (Pattern.plus (.cls .word))))
      (.seq (.cls (.lit '@'))
        (.seq (Pattern.plus (.cls .word))
          (.seq (.star (.seq (Pattern.opt (.cls .dotOrDash)) (Pattern.plus (.cls .word))))
            (Pattern.plus
              (.seq (.cls (.lit '.'))
                (.seq (.cls .word) (.seq (.cls .word) (Pattern.opt (.cls .word))))))))))

/-- The object `newErrors` that `validateForm` builds, as its entries. -/
def newErrors (formData : FormData) : List (String × String) :=
  (if jsTrim formData.full_name = "" then [("full_name", "Full name is required")] else [])
  ++ (if jsTrim formData.email = "" then [("email", "Email is required")]
      else if !emailPattern.test formData.email then [("email", "Please enter a valid email")]
      else [])
  ++ (if jsTrim formData.username = "" then [("username", "Username is required")]
      else if jsLength formData.username < 3 then
        [("username", "Username must be at least 3 characters")]
      else [])
  ++ (if formData.password = "" then [("password", "Password is required")]
      else if jsLength formData.password < 6 then
        [("password", "Password must be at least 6 characters")]
      else [])
  ++ (if formData.confirmPassword = "" then
        [("confirmPassword", "Please confirm your password")]
      else if formData.password ≠ formData.confirmPassword then
        [("confirmPassword", "Passwords do not match")]
      else [])

/-- The function `validateForm`: `Object.keys(newErrors).length === 0`. -/
def validateForm (formData : FormData) : Bool :=
  decide ((newErrors formData).length = 0)

/-- The request `handleSubmit` passes to `register`, `none` when it returns
without sending one. -/
def handleSubmit (formData : FormData) : Option RegisterBody :=
  if !validateForm formData then none
  else
    some { full_name := some formData.full_name
           email := some formData.email
           username := some formData.username
           password := some formData.password }

/-- Ann's registration form. -/
def annForm : FormData :=
  { full_name := "Ann Lee", email := "ann@x.com", username := "annlee",
    password := "secret1", confirmPassword := "secret1" }

end RegisterPage

namespace AuthController

/-! ## Lemmas about the store -/

theorem find?_unique {α : Type} (p : α → Bool) (l : List α) (r : α) (hr : r ∈ l)
    (hp : p r = true) (huniq : ∀ u ∈ l, p u = true → u = r) : l.find? p = some r := by
  cases h : l.find? p with
  | none =>
    rw [List.find?_eq_none] at h
    exact absurd hp (h r hr)
  | some u =>
    have hu := huniq u (List.mem_of_find?_eq_some h) (List.find?_some h)
    rw [hu]

theorem findOne_of_available (db : Db) (email username : String) (h : db.fault = none) :
    findOne db email username =
      .ok (db.users.find? (fun u => decide (u.email = email) || decide (u.username = username))) := by
  simp [findOne, h]

theorem findOne_some_matches (db : Db) (email username : String) (u : User)
    (h : findOne db email username = .ok (some u)) :
    db.fault = none ∧ u ∈ db.users ∧ (u.email = email ∨ u.username = username) := by
  unfold findOne at h
  cases hf : db.fault with
  | some e => simp [hf] at h
  | none =>
    simp only [hf, Except.ok.injEq] at h
    refine ⟨rfl, List.mem_of_find?_eq_some h, ?_⟩
    have := List.find?_some h
    simpa using this

theorem findOne_none_fresh (db : Db) (email username : String)
    (h : findOne db email username = .ok none) :
    db.fault = none ∧ ∀ u ∈ db.users, u.email ≠ email ∧ u.username ≠ username := by
  unfold findOne at h
  cases hf : db.fault with
  | some e => simp [hf] at h
  | none =>
    simp only [hf, Except.ok.injEq] at h
    rw [List.find?_eq_none] at h
    refine ⟨rfl, fun u hu => ?_⟩
    have := h u hu
    simpa using this

theorem eq_of_nodup_map {α β : Type} (f : α → β) (l : List α) (h : (l.map f).Nodup)
    (a b : α) (ha : a ∈ l) (hb : b ∈ l) (hab : f a = f b) : a = b :=
  List.inj_on_of_nodup_map h ha hb hab

/-! ## Login -/

/-- C1 (as stated, refuted): in a store with pairwise distinct emails and
pairwise distinct usernames, logging in with Ann's username and the password
that matches her stored hash is answered 401, because her username is the
email address of an earlier record, which is the one the lookup yields. -/
theorem loginUser_cross_field_counterexample :
    (([bob, annAlias].map (fun u => u.email)).Nodup
      ∧ ([bob, annAlias].map (fun u => u.username)).Nodup
      ∧ annAlias ∈ [bob, annAlias]
      ∧ "bob@x.com" = annAlias.username
      ∧ demoHasher.compare "secret1" annAlias.password = true)
    ∧ (loginUser demoHasher demoEnv ⟨[bob, annAlias], none⟩
        ⟨some "bob@x.com", some "secret1"⟩).res =
        { status := 401
          body := [("success", .val (.bool false)),
                   ("message", .val (.str "Invalid credentials"))] } := by
  decide

/-- C1 (amended): in a store with pairwise distinct emails and pairwise
distinct usernames that is available, with the signing secret configured, for
every record `r` whose email is no other record's username and whose username
is no other record's email, `loginUser` called with a non-empty identifier
equal to `r`'s email or username and a non-empty password matching `r`'s stored
hash responds 200 with `r`'s public fields and a token that encodes `r._id`:
`ValidateToken` yields `r._id` throughout the 30 days after issuance. -/
theorem loginUser_correct_credentials (H : PasswordHasher) (env : Env) (db : Db) (r : User)
    (identifier password key : String)
    (havail : db.fault = none) (hkey : env.JWT_SECRET = some key) (hkey_ne : key ≠ "")
    (hemails : (db.users.map (fun u => u.email)).Nodup)
    (husernames : (db.users.map (fun u => u.username)).Nodup)
    (hr : r ∈ db.users)
    (hcross : ∀ u ∈ db.users, u ≠ r → u.username ≠ r.email ∧ u.email ≠ r.username)
    (hident : identifier = r.email ∨ identifier = r.username)
    (hident_ne : identifier ≠ "") (hpassword_ne : password ≠ "")
    (hmatch : H.compare password r.password = true) :
    ∃ token : Token,
      (loginUser H env db ⟨some identifier, some password⟩).res =
        { status := 200
          body := [("success", .val (.bool true)),
                   ("message", .val (.str "Login successful")),
                   ("data", .obj [("_id", .num r._id),
                                  ("full_name", .str r.full_name),
                                  ("email", .str r.email),
                                  ("username", .str r.username),
                                  ("token", .jwt token)])] }
      ∧ token.id = r._id
      ∧ ∀ clock, env.now ≤ clock → clock < env.now + thirtyDays →
          ValidateToken env.JWT_SECRET clock token = .ok r._id := by
  have hfind : findOne db identifier identifier = .ok (some r) := by
    rw [findOne_of_available db identifier identifier havail]
    congr 1
    apply find?_unique _ _ r hr
    · rcases hident with h | h <;> simp [h]
    · intro u hu hp
      by_contra hne
      have hc := hcross u hu hne
      simp only [Bool.or_eq_true, decide_eq_true_eq] at hp
      rcases hident with h | h
      · rcases hp with hp | hp
        · exact hne (eq_of_nodup_map _ _ hemails u r hu hr (hp.trans h))
        · exact hc.1 (hp.trans h)
      · rcases hp with hp | hp
        · exact hc.2 (hp.trans h)
        · exact hne (eq_of_nodup_map _ _ husernames u r hu hr (hp.trans h))
  refine ⟨{ id := r._id, iat := env.now, exp := env.now + thirtyDays, sig := some key }, ?_, rfl, ?_⟩
  · simp [loginUser, loginUserTry, falsy, hident_ne, hpassword_ne, hfind, hmatch,
      generateToken, hkey, hkey_ne]
  · intro clock _ hlt
    simp [ValidateToken, hkey, hkey_ne, Nat.not_le.mpr hlt]

/-- Witness for C1 (amended): Ann, alone in the store, logs in with her email. -/
theorem loginUser_correct_credentials_witness :
    ∃ token : Token,
      (loginUser demoHasher demoEnv ⟨[ann], none⟩ ⟨some "ann@x.com", some "secret1"⟩).res =
        { status := 200
          body := [("success", .val (.bool true)),
                   ("message", .val (.str "Login successful")),
                   ("data", .obj [("_id", .num ann._id),
                                  ("full_name", .str ann.full_name),
                                  ("email", .str ann.email),
                                  ("username", .str ann.username),
                                  ("token", .jwt token)])] }
      ∧ token.id = ann._id
      ∧ ∀ clock, demoEnv.now ≤ clock → clock < demoEnv.now + thirtyDays →
          ValidateToken demoEnv.JWT_SECRET clock token = .ok ann._id :=
  loginUser_correct_credentials demoHasher demoEnv ⟨[ann], none⟩ ann "ann@x.com" "secret1" "s3cr3t"
    rfl rfl (by decide) (by decide) (by decide) (by decide) (by decide) (by decide)
    (by decide) (by decide) (by decide)

/-- C2: for every store and every pair of login requests with both fields
present, one whose identifier the lookup matches to no record and one whose
identifier the lookup matches to a record whose stored hash the password does
not match, `loginUser` sends the identical response: status 401 with body
`{ success: false, message: 'Invalid credentials' }`. -/
theorem loginUser_rejections_identical (H : PasswordHasher) (env₁ env₂ : Env) (db : Db)
    (unknown password₁ known password₂ : String) (user : User)
    (hunknown_ne : unknown ≠ "") (hpassword₁_ne : password₁ ≠ "")
    (hknown_ne : known ≠ "") (hpassword₂_ne : password₂ ≠ "")
    (hnone : findOne db unknown unknown = .ok none)
    (hsome : findOne db known known = .ok (some user))
    (hwrong : H.compare password₂ user.password = false) :
    (loginUser H env₁ db ⟨some unknown, some password₁⟩).res =
        { status := 401
          body := [("success", .val (.bool false)),
                   ("message", .val (.str "Invalid credentials"))] }
    ∧ (loginUser H env₂ db ⟨some known, some password₂⟩).res =
        (loginUser H env₁ db ⟨some unknown, some password₁⟩).res := by
  have h₁ : (loginUser H env₁ db ⟨some unknown, some password₁⟩).res =
      failure 401 "Invalid credentials" := by
    simp [loginUser, loginUserTry, falsy, hunknown_ne, hpassword₁_ne, hnone]
  have h₂ : (loginUser H env₂ db ⟨some known, some password₂⟩).res =
      failure 401 "Invalid credentials" := by
    simp [loginUser, loginUserTry, falsy, hknown_ne, hpassword₂_ne, hsome, hwrong]
  exact ⟨h₁, h₂.trans h₁.symm⟩

/-- Witness for C2: with Ann alone in the store, an unknown identifier and
Ann's username with a wrong password (scenario C) get the same response. -/
theorem loginUser_rejections_identical_witness :
    (loginUser demoHasher demoEnv ⟨[ann], none⟩ ⟨some "nobody", some "secret1"⟩).res =
        { status := 401
          body := [("success", .val (.bool false)),
                   ("message", .val (.str "Invalid credentials"))] }
    ∧ (loginUser demoHasher demoEnv ⟨[ann], none⟩ ⟨some "annlee", some "wrong"⟩).res =
        (loginUser demoHasher demoEnv ⟨[ann], none⟩ ⟨some "nobody", some "secret1"⟩).res :=
  loginUser_rejections_identical demoHasher demoEnv demoEnv ⟨[ann], none⟩
    "nobody" "secret1" "annlee" "wrong" ann
    (by decide) (by decide) (by decide) (by decide) rfl rfl (by decide)

/-! ## Registration -/

theorem registerUser_db (H : PasswordHasher) (env : Env) (db : Db) (body : RegisterBody) :
    (registerUser H env db body).db = (registerUserTry H env db body).db := by
  unfold registerUser
  cases h : (registerUserTry H env db body).result <;> simp only [h]

theorem registerUser_ops (H : PasswordHasher) (env : Env) (db : Db) (body : RegisterBody) :
    (registerUser H env db body).ops = (registerUserTry H env db body).ops := by
  unfold registerUser
  cases h : (registerUserTry H env db body).result <;> simp only [h]

theorem registerUserCreate_ops (H : PasswordHasher) (env : Env) (db : Db)
    (full_name email username password : String) (ops : List StoreOp) :
    (registerUserCreate H env db full_name email username password ops).ops =
      ops ++ [.create email username] := by
  unfold registerUserCreate
  split
  · rfl
  · split <;> rfl

theorem create_cases (H : PasswordHasher) (env : Env) (db : Db)
    (full_name email username password : String) :
    (∃ e, create H env db full_name email username password = (.error e, db))
    ∨ (db.fault = none ∧ (∀ r ∈ db.users, r.email ≠ email ∧ r.username ≠ username)
        ∧ create H env db full_name email username password =
            (.ok (createdUser H env db full_name email username password),
             { db with users := db.users ++
                 [createdUser H env db full_name email username password] })) := by
  unfold create
  cases hf : db.fault with
  | some e => exact Or.inl ⟨e, rfl⟩
  | none =>
    by_cases hany : db.users.any
        (fun u => decide (u.email = email) || decide (u.username = username)) = true
    · left
      exact ⟨⟨"E11000 duplicate key error"⟩, by simp only [hany, if_true]⟩
    · right
      refine ⟨rfl, ?_, by simp only [hany, createdUser]; rfl⟩
      intro r hr
      simp only [List.any_eq_true, not_exists, not_and, Bool.or_eq_true, decide_eq_true_eq,
        not_or] at hany
      exact hany r hr

theorem registerUserTry_cases (H : PasswordHasher) (env : Env) (db : Db) (body : RegisterBody) :
    ((registerUserTry H env db body).db = db
      ∧ (∀ e u, StoreOp.create e u ∉ (registerUserTry H env db body).ops)
      ∧ ∀ res, (registerUserTry H env db body).result = .ok res → res.status = 400)
    ∨ ∃ full_name email username password,
        body = ⟨some full_name, some email, some username, some password⟩
        ∧ (full_name ≠ "" ∧ email ≠ "" ∧ username ≠ "" ∧ password ≠ "")
        ∧ 6 ≤ jsLength password
        ∧ findOne db email username = .ok none
        ∧ registerUserTry H env db body =
            registerUserCreate H env db full_name email username password
              [.findOne email username] := by
  rcases body with ⟨fn, e, u, p⟩
  cases fn <;> cases e <;> cases u <;> cases p
  all_goals try (left; simp [registerUserTry, falsy, failure]; done)
  rename_i fn e u p
  by_cases hg : ((fn = "" ∨ e = "") ∨ u = "") ∨ p = ""
  · left
    simp [registerUserTry, falsy, failure, hg]
  · have hg' : fn ≠ "" ∧ e ≠ "" ∧ u ≠ "" ∧ p ≠ "" :=
      ⟨fun h => hg (.inl (.inl (.inl h))), fun h => hg (.inl (.inl (.inr h))),
       fun h => hg (.inl (.inr h)), fun h => hg (.inr h)⟩
    by_cases hlen : jsLength p < 6
    · left
      simp [registerUserTry, falsy, failure, hg, hlen]
    · cases hfind : findOne db e u with
      | error err =>
        left
        simp [registerUserTry, falsy, failure, hg, hlen, hfind]
      | ok found =>
        cases found with
        | none =>
          right
          refine ⟨fn, e, u, p, rfl, hg', Nat.le_of_not_lt hlen, hfind, ?_⟩
          simp [registerUserTry, falsy, failure, hg, hlen, hfind]
        | some x =>
          left
          have hx := (findOne_some_matches db e u x hfind).2.2
          by_cases he : x.email = e
          · simp [registerUserTry, falsy, failure, hg, hlen, hfind, he]
          · have hu : x.username = u := hx.resolve_left he
            simp [registerUserTry, falsy, failure, hg, hlen, hfind, he, hu]

theorem registerUserCreate_db (H : PasswordHasher) (env : Env) (db : Db)
    (full_name email username password : String) (ops : List StoreOp) :
    (registerUserCreate H env db full_name email username password ops).db = db
    ∨ (db.fault = none ∧ (∀ r ∈ db.users, r.email ≠ email ∧ r.username ≠ username)
        ∧ (registerUserCreate H env db full_name email username password ops).db =
            { db with users := db.users ++
                [createdUser H env db full_name email username password] }) := by
  unfold registerUserCreate
  rcases create_cases H env db full_name email username password with ⟨e, h⟩ | ⟨hf, hfresh, h⟩
  · left
    rw [h]
  · right
    refine ⟨hf, hfresh, ?_⟩
    rw [h]
    dsimp only
    split <;> rfl

/-- C3: uniqueness is an invariant of registration.  For every store whose
emails are pairwise distinct and whose usernames are pairwise distinct, and
every request body, the store after `registerUser`, whatever its outcome, has
pairwise distinct emails and pairwise distinct usernames; and `User.create` is
issued only with the requested email and username and only when no record of
the store has that email or that username. -/
theorem registerUser_preserves_uniqueness (H : PasswordHasher) (env : Env) (db : Db)
    (body : RegisterBody)
    (hemails : (db.users.map (fun u => u.email)).Nodup)
    (husernames : (db.users.map (fun u => u.username)).Nodup) :
    ((registerUser H env db body).db.users.map (fun u => u.email)).Nodup
    ∧ ((registerUser H env db body).db.users.map (fun u => u.username)).Nodup
    ∧ ∀ email username, StoreOp.create email username ∈ (registerUser H env db body).ops →
        body.email = some email ∧ body.username = some username
        ∧ ∀ r ∈ db.users, r.email ≠ email ∧ r.username ≠ username := by
  rw [registerUser_db, registerUser_ops]
  rcases registerUserTry_cases H env db body with
    ⟨hdb, hops, _⟩ | ⟨fn, e, u, p, hbody, _, _, hfind, htry⟩
  · rw [hdb]
    exact ⟨hemails, husernames, fun e u h => absurd h (hops e u)⟩
  · have hfresh := (findOne_none_fresh db e u hfind).2
    rw [htry, registerUserCreate_ops]
    refine ⟨?_, ?_, ?_⟩
    · rcases registerUserCreate_db H env db fn e u p [.findOne e u] with h | ⟨_, _, h⟩
      · rw [h]; exact hemails
      · rw [h]
        simp only [List.map_append, List.map_cons, List.map_nil, createdUser]
        rw [List.nodup_append]
        refine ⟨hemails, List.nodup_singleton _, ?_⟩
        intro x hx hx'
        rw [List.mem_singleton] at hx'
        rw [List.mem_map] at hx
        obtain ⟨r, hr, hre⟩ := hx
        exact (hfresh r hr).1 (hre.trans hx')
    · rcases registerUserCreate_db H env db fn e u p [.findOne e u] with h | ⟨_, _, h⟩
      · rw [h]; exact husernames
      · rw [h]
        simp only [List.map_append, List.map_cons, List.map_nil, createdUser]
        rw [List.nodup_append]
        refine ⟨husernames, List.nodup_singleton _, ?_⟩
        intro x hx hx'
        rw [List.mem_singleton] at hx'
        rw [List.mem_map] at hx
        obtain ⟨r, hr, hru⟩ := hx
        exact (hfresh r hr).2 (hru.trans hx')
    · intro email username hmem
      simp only [List.cons_append, List.nil_append, List.mem_cons, List.mem_singleton,
        StoreOp.create.injEq, List.mem_nil_iff, or_false, false_or, reduceCtorEq] at hmem
      obtain ⟨rfl, rfl⟩ := hmem
      rw [hbody]
      exact ⟨rfl, rfl, hfresh⟩

/-- Witness for C3: registering Bob in the store that holds Ann. -/
theorem registerUser_preserves_uniqueness_witness :
    ((registerUser demoHasher demoEnv ⟨[ann], none⟩ bobBody).db.users.map
        (fun u => u.email)).Nodup
    ∧ ((registerUser demoHasher demoEnv ⟨[ann], none⟩ bobBody).db.users.map
        (fun u => u.username)).Nodup
    ∧ ∀ email username,
        StoreOp.create email username ∈ (registerUser demoHasher demoEnv ⟨[ann], none⟩ bobBody).ops →
        bobBody.email = some email ∧ bobBody.username = some username
        ∧ ∀ r ∈ [ann], r.email ≠ email ∧ r.username ≠ username :=
  registerUser_preserves_uniqueness demoHasher demoEnv ⟨[ann], none⟩ bobBody
    (by decide) (by decide)

theorem findOne_of_fresh (db : Db) (email username : String) (havail : db.fault = none)
    (hfresh : ∀ r ∈ db.users, r.email ≠ email ∧ r.username ≠ username) :
    findOne db email username = .ok none := by
  rw [findOne_of_available db email username havail]
  congr 1
  rw [List.find?_eq_none]
  intro r hr
  have := hfresh r hr
  simp [this.1, this.2]

theorem findOne_appended (db : Db) (email username : String) (added : User)
    (havail : db.fault = none)
    (hfresh : ∀ r ∈ db.users, r.email ≠ email ∧ r.username ≠ username)
    (hadded : added.email = email ∨ added.username = username) :
    findOne { db with users := db.users ++ [added] } email username = .ok (some added) := by
  have hnone : db.users.find?
      (fun u => decide (u.email = email) || decide (u.username = username)) = none := by
    rw [List.find?_eq_none]
    intro r hr
    have := hfresh r hr
    simp [this.1, this.2]
  have hp : (decide (added.email = email) || decide (added.username = username)) = true := by
    rcases hadded with h | h <;> simp [h]
  simp [findOne, havail, List.find?_append, hnone, List.find?_cons, hp]

theorem jsLength_empty : jsLength "" = 0 := rfl

theorem ne_empty_of_jsLength (password : String) (h : 6 ≤ jsLength password) : password ≠ "" := by
  rintro rfl
  rw [jsLength_empty] at h
  omega

/-- The outcome of `registerUser` for a valid body with a fresh email and a
fresh username, on an available store and with the signing secret configured. -/
theorem registerUser_fresh (H : PasswordHasher) (env : Env) (db : Db)
    (full_name email username password key : String)
    (havail : db.fault = none) (hkey : env.JWT_SECRET = some key) (hkey_ne : key ≠ "")
    (hfull_name : full_name ≠ "") (hemail : email ≠ "") (husername : username ≠ "")
    (hpassword : 6 ≤ jsLength password)
    (hfresh : ∀ r ∈ db.users, r.email ≠ email ∧ r.username ≠ username) :
    registerUser H env db ⟨some full_name, some email, some username, some password⟩ =
      { res :=
          { status := 201
            body := [("success", .val (.bool true)),
                     ("message", .val (.str "User registered successfully")),
                     ("data", .obj [("_id", .num (freshId db.users)),
                                    ("full_name", .str full_name),
                                    ("email", .str email),
                                    ("username", .str username),
                                    ("created_at", .num env.now),
                                    ("token", .jwt { id := freshId db.users, iat := env.now,
                                                     exp := env.now + thirtyDays,
                                                     sig := some key })])] }
        db := { db with users := db.users ++
                  [createdUser H env db full_name email username password] }
        ops := [.findOne email username, .create email username]
        console := [] } := by
  have hfind := findOne_of_fresh db email username havail hfresh
  have hpw := ne_empty_of_jsLength password hpassword
  have hany : db.users.any
      (fun u => decide (u.email = email) || decide (u.username = username)) = false := by
    rw [List.any_eq_false]
    intro r hr
    have := hfresh r hr
    simp [this.1, this.2]
  simp [registerUser, registerUserTry, falsy, hfull_name, hemail, husername, hpw,
    Nat.not_lt.mpr hpassword, hfind, registerUserCreate, create, havail, hany, generateToken,
    hkey, hkey_ne, createdUser]

/-- The response of `registerUser` for a valid body when the lookup yields a
record. -/
theorem registerUser_found (H : PasswordHasher) (env : Env) (db : Db)
    (full_name email username password : String) (found : User)
    (hfull_name : full_name ≠ "") (hemail : email ≠ "") (husername : username ≠ "")
    (hpassword : 6 ≤ jsLength password)
    (hfind : findOne db email username = .ok (some found)) :
    (registerUser H env db ⟨some full_name, some email, some username, some password⟩).res =
      if found.email = email then failure 400 "Email already registered"
      else failure 400 "Username already taken" := by
  have hpw := ne_empty_of_jsLength password hpassword
  have hx := (findOne_some_matches db email username found hfind).2.2
  by_cases he : found.email = email
  · simp [registerUser, registerUserTry, falsy, hfull_name, hemail, husername, hpw,
      Nat.not_lt.mpr hpassword, hfind, he]
  · have hu : found.username = username := hx.resolve_left he
    simp [registerUser, registerUserTry, falsy, hfull_name, hemail, husername, hpw,
      Nat.not_lt.mpr hpassword, hfind, he, hu]

/-- C4 (as stated, refuted): after Ann registers (201) in a store that holds
Bob, a second registration with Ann's username and a different email, the one
Bob holds, is answered `Email already registered`, not `Username already
taken`. -/
theorem registerUser_second_conflict_counterexample :
    (∀ r ∈ [bob], r.email ≠ "ann@x.com" ∧ r.username ≠ "annlee")
    ∧ (registerUser demoHasher demoEnv ⟨[bob], none⟩ annBody).res.status = 201
    ∧ "bob@x.com" ≠ "ann@x.com"
    ∧ (registerUser demoHasher demoEnv (registerUser demoHasher demoEnv ⟨[bob], none⟩ annBody).db
        ⟨some "Ann Lee", some "bob@x.com", some "annlee", some "secret1"⟩).res =
        { status := 400
          body := [("success", .val (.bool false)),
                   ("message", .val (.str "Email already registered"))] } := by
  decide

/-- C4 (amended): on an available store, with the signing secret configured,
every valid registration input whose email and username are both absent from
the store succeeds with 201; a second valid `registerUser` on the resulting
store with the same username and a different email that no record holds fails
with 400 and message `Username already taken`, and a second valid
`registerUser` with the same email and a username that no other record holds
fails with 400 and message `Email already registered`. -/
theorem registerUser_once_then_conflict (H : PasswordHasher) (env env₂ : Env) (db : Db)
    (full_name email username password key : String)
    (full_name₂ email₂ username₂ password₂ : String)
    (havail : db.fault = none) (hkey : env.JWT_SECRET = some key) (hkey_ne : key ≠ "")
    (hfull_name : full_name ≠ "") (hemail : email ≠ "") (husername : username ≠ "")
    (hpassword : 6 ≤ jsLength password)
    (hfresh : ∀ r ∈ db.users, r.email ≠ email ∧ r.username ≠ username)
    (hfull_name₂ : full_name₂ ≠ "") (hpassword₂ : 6 ≤ jsLength password₂)
    (hemail₂ : email₂ ≠ "") (hemail₂_ne : email₂ ≠ email)
    (hemail₂_free : ∀ r ∈ db.users, r.email ≠ email₂)
    (husername₂ : username₂ ≠ "")
    (husername₂_free : ∀ r ∈ db.users, r.username ≠ username₂) :
    (registerUser H env db ⟨some full_name, some email, some username, some password⟩).res.status
        = 201
    ∧ (registerUser H env₂
        (registerUser H env db ⟨some full_name, some email, some username, some password⟩).db
        ⟨some full_name₂, some email₂, some username, some password₂⟩).res =
        { status := 400
          body := [("success", .val (.bool false)),
                   ("message", .val (.str "Username already taken"))] }
    ∧ (registerUser H env₂
        (registerUser H env db ⟨some full_name, some email, some username, some password⟩).db
        ⟨some full_name₂, some email, some username₂, some password₂⟩).res =
        { status := 400
          body := [("success", .val (.bool false)),
                   ("message", .val (.str "Email already registered"))] } := by
  rw [registerUser_fresh H env db full_name email username password key havail hkey hkey_ne
    hfull_name hemail husername hpassword hfresh]
  refine ⟨rfl, ?_, ?_⟩
  · have hfind := findOne_appended db email₂ username
      (createdUser H env db full_name email username password) havail
      (fun r hr => ⟨hemail₂_free r hr, (hfresh r hr).2⟩) (Or.inr rfl)
    have hne : ¬ email = email₂ := fun h => hemail₂_ne h.symm
    rw [registerUser_found H env₂ _ full_name₂ email₂ username password₂ _ hfull_name₂ hemail₂
      husername hpassword₂ hfind]
    simp [createdUser, hne, failure]
  · have hfind := findOne_appended db email username₂
      (createdUser H env db full_name email username password) havail
      (fun r hr => ⟨(hfresh r hr).1, husername₂_free r hr⟩) (Or.inl rfl)
    rw [registerUser_found H env₂ _ full_name₂ email username₂ password₂ _ hfull_name₂ hemail
      husername₂ hpassword₂ hfind]
    simp [createdUser, failure]

/-- Witness for C4 (amended): scenarios A and B in an empty store, then a
second registration with Ann's email. -/
theorem registerUser_once_then_conflict_witness :
    (registerUser demoHasher demoEnv ⟨[], none⟩
        ⟨some "Ann Lee", some "ann@x.com", some "annlee", some "secret1"⟩).res.status = 201
    ∧ (registerUser demoHasher demoEnv
        (registerUser demoHasher demoEnv ⟨[], none⟩
          ⟨some "Ann Lee", some "ann@x.com", some "annlee", some "secret1"⟩).db
        ⟨some "Ann Roe", some "roe@x.com", some "annlee", some "secret2"⟩).res =
        { status := 400
          body := [("success", .val (.bool false)),
                   ("message", .val (.str "Username already taken"))] }
    ∧ (registerUser demoHasher demoEnv
        (registerUser demoHasher demoEnv ⟨[], none⟩
          ⟨some "Ann Lee", some "ann@x.com", some "annlee", some "secret1"⟩).db
        ⟨some "Ann Roe", some "ann@x.com", some "annroe", some "secret2"⟩).res =
        { status := 400
          body := [("success", .val (.bool false)),
                   ("message", .val (.str "Email already registered"))] } :=
  registerUser_once_then_conflict demoHasher demoEnv demoEnv ⟨[], none⟩
    "Ann Lee" "ann@x.com" "annlee" "secret1" "s3cr3t" "Ann Roe" "roe@x.com" "annroe" "secret2"
    rfl rfl (by decide) (by decide) (by decide) (by decide) (by decide) (by decide)
    (by decide) (by decide) (by decide) (by decide) (by decide) (by decide) (by decide)

/-! ## Shape of the responses -/

theorem falsy_iff (v : Option String) : falsy v = true ↔ (v = none ∨ v = some "") := by
  cases v <;> simp [falsy]

theorem registerUser_of_ok (H : PasswordHasher) (env : Env) (db : Db) (body : RegisterBody)
    (res : Response) (h : (registerUserTry H env db body).result = .ok res) :
    (registerUser H env db body).res = res ∧ (registerUser H env db body).console = [] := by
  unfold registerUser
  simp only [h, and_self]

theorem registerUser_of_error (H : PasswordHasher) (env : Env) (db : Db) (body : RegisterBody)
    (error : JsError) (h : (registerUserTry H env db body).result = .error error) :
    (registerUser H env db body).res = serverError "Server error during registration" error
    ∧ (registerUser H env db body).console = [("Registration error:", error)] := by
  unfold registerUser
  simp only [h, and_self]

theorem registerUserCreate_result (H : PasswordHasher) (env : Env) (db : Db)
    (full_name email username password : String) (ops : List StoreOp) :
    (∃ e, (registerUserCreate H env db full_name email username password ops).result = .error e)
    ∨ ∃ res, (registerUserCreate H env db full_name email username password ops).result = .ok res
        ∧ res.status = 201
        ∧ dataKeys res =
            some ["_id", "full_name", "email", "username", "created_at", "token"] := by
  unfold registerUserCreate
  split
  · exact Or.inl ⟨_, rfl⟩
  · split
    · exact Or.inl ⟨_, rfl⟩
    · exact Or.inr ⟨_, rfl, rfl, rfl⟩

/-- Every path of the `try` block of `registerUser`. -/
theorem registerUserTry_paths (H : PasswordHasher) (env : Env) (db : Db) (body : RegisterBody) :
    ((falsy body.full_name || falsy body.email || falsy body.username || falsy body.password)
        = true
      ∧ (registerUserTry H env db body).result =
          .ok (failure 400 "Please provide all required fields")
      ∧ (registerUserTry H env db body).db = db ∧ (registerUserTry H env db body).ops = [])
    ∨ ((falsy body.full_name || falsy body.email || falsy body.username || falsy body.password)
        = false
      ∧ ∃ password, body.password = some password ∧
        ((jsLength password < 6
          ∧ (registerUserTry H env db body).result =
              .ok (failure 400 "Password must be at least 6 characters long")
          ∧ (registerUserTry H env db body).db = db ∧ (registerUserTry H env db body).ops = [])
        ∨ (6 ≤ jsLength password
          ∧ ((∃ e, (registerUserTry H env db body).result = .error e)
            ∨ (registerUserTry H env db body).result =
                .ok (failure 400 "Email already registered")
            ∨ (registerUserTry H env db body).result =
                .ok (failure 400 "Username already taken")
            ∨ ∃ res, (registerUserTry H env db body).result = .ok res ∧ res.status = 201
                ∧ dataKeys res =
                    some ["_id", "full_name", "email", "username", "created_at", "token"])))) := by
  rcases body with ⟨fn, e, u, p⟩
  cases fn <;> cases e <;> cases u <;> cases p
  all_goals try (left; simp [registerUserTry, falsy]; done)
  rename_i fn e u p
  by_cases hg : ((fn = "" ∨ e = "") ∨ u = "") ∨ p = ""
  · left
    simp [registerUserTry, falsy, hg]
  · right
    refine ⟨by simpa [falsy] using hg, p, rfl, ?_⟩
    by_cases hlen : jsLength p < 6
    · left
      simp [registerUserTry, falsy, hg, hlen]
    · right
      refine ⟨Nat.le_of_not_lt hlen, ?_⟩
      cases hfind : findOne db e u with
      | error err =>
        left
        simp [registerUserTry, falsy, hg, hlen, hfind]
      | ok found =>
        cases found with
        | none =>
          have htry : registerUserTry H env db ⟨some fn, some e, some u, some p⟩ =
              registerUserCreate H env db fn e u p [.findOne e u] := by
            simp [registerUserTry, falsy, hg, hlen, hfind]
          rw [htry]
          rcases registerUserCreate_result H env db fn e u p [.findOne e u] with h | h
          · exact Or.inl h
          · exact Or.inr (Or.inr (Or.inr h))
        | some x =>
          have hx := (findOne_some_matches db e u x hfind).2.2
          by_cases he : x.email = e
          · right; left
            simp [registerUserTry, falsy, hg, hlen, hfind, he]
          · have hu : x.username = u := hx.resolve_left he
            right; right; left
            simp [registerUserTry, falsy, hg, hlen, hfind, he, hu]

theorem utf16Units_bounds (c : Char) : 1 ≤ utf16Units c ∧ utf16Units c ≤ 2 := by
  unfold utf16Units
  split <;> omega

theorem utf16_sum_bounds (l : List Char) :
    l.length ≤ (l.map utf16Units).sum ∧ (l.map utf16Units).sum ≤ 2 * l.length := by
  induction l with
  | nil => simp
  | cons c rest ih =>
    have hc := utf16Units_bounds c
    simp only [List.map_cons, List.sum_cons, List.length_cons]
    omega

/-- The JavaScript length of a string lies between its number of characters
and twice that number. -/
theorem jsLength_bounds (s : String) : s.length ≤ jsLength s ∧ jsLength s ≤ 2 * s.length :=
  utf16_sum_bounds s.data

theorem utf16_sum_of_bmp (l : List Char) (h : ∀ c ∈ l, c.val.toNat < 65536) :
    (l.map utf16Units).sum = l.length := by
  induction l with
  | nil => rfl
  | cons c rest ih =>
    have hc : utf16Units c = 1 := by
      unfold utf16Units
      simp [h c (List.mem_cons_self c rest)]
    have hrest := ih (fun d hd => h d (List.mem_cons_of_mem c hd))
    simp only [List.map_cons, List.sum_cons, List.length_cons, hc, hrest]
    omega

/-- On a string of characters of the Basic Multilingual Plane the JavaScript
length is the number of characters. -/
theorem jsLength_of_bmp (s : String) (h : ∀ c ∈ s.data, c.val.toNat < 65536) :
    jsLength s = s.length :=
  utf16_sum_of_bmp s.data h

/-- The JavaScript length on samples: one unit per character of the Basic
Multilingual Plane, two per character outside it. -/
theorem jsLength_samples :
    jsLength "" = 0 ∧ jsLength "12345" = 5 ∧ jsLength "secret" = 6 ∧ jsLength "secret1" = 7
    ∧ threeAstral.length = 3 ∧ jsLength threeAstral = 6 := by
  decide

/-- A password of three characters outside the Basic Multilingual Plane has
JavaScript length 6 and is registered. -/
theorem registerUser_counts_code_units :
    (registerUser demoHasher demoEnv ⟨[], none⟩
        { full_name := some "Ann Lee", email := some "ann@x.com", username := some "annlee",
          password := some threeAstral }).res.status = 201 := by
  decide

/-- The guards of lines 27-43 on a body whose fields are strings or absent. -/
theorem registerUserGuards_raw (body : RegisterBody) :
    registerUserGuards body.raw =
      if (falsy body.full_name || falsy body.email || falsy body.username || falsy body.password)
          = true then
        some (failure 400 "Please provide all required fields")
      else
        match body.password with
        | some password =>
          if jsLength password < 6 then
            some (failure 400 "Password must be at least 6 characters long")
          else none
        | none => none := by
  rcases body with ⟨fn, e, u, p⟩
  cases fn <;> cases e <;> cases u <;> cases p <;>
    simp [registerUserGuards, RegisterBody.raw, ofField, jsNot, falsy, lengthBelowSix, failure]

/-- C5 (as stated, refuted): a body whose `full_name` is the number 0, with no
field missing or empty and a password of seven characters, is answered with
the validation error `Please provide all required fields`; and a body whose
password is the number 12 passes both guards. -/
theorem registerUserGuards_non_string_counterexample :
    registerUserGuards
        { full_name := .num 0, email := .str "ann@x.com", username := .str "annlee",
          password := .str "secret1" } =
        some { status := 400
               body := [("success", .val (.bool false)),
                        ("message", .val (.str "Please provide all required fields"))] }
    ∧ registerUserGuards
        { full_name := .str "Ann Lee", email := .str "ann@x.com", username := .str "annlee",
          password := .num 12 } = none := by
  decide

/-- C5 (amended): for every request body whose four fields are each a string
or absent, `registerUser` answers with a validation error (status 400, message
`Please provide all required fields` or `Password must be at least 6 characters
long`) exactly when one of `full_name`, `email`, `username`, `password` is
missing or empty, or the password has a JavaScript length (UTF-16 code units)
below 6; whenever it does, the store is neither queried (no store operation is
issued) nor modified; and that answer is the one the guards of lines 27-43 give
on the body as parsed JSON. -/
theorem registerUser_validation (H : PasswordHasher) (env : Env) (db : Db)
    (body : RegisterBody) :
    (((registerUser H env db body).res =
          { status := 400
            body := [("success", .val (.bool false)),
                     ("message", .val (.str "Please provide all required fields"))] }
        ∨ (registerUser H env db body).res =
          { status := 400
            body := [("success", .val (.bool false)),
                     ("message", .val (.str "Password must be at least 6 characters long"))] })
      ↔ ((body.full_name = none ∨ body.full_name = some "")
          ∨ (body.email = none ∨ body.email = some "")
          ∨ (body.username = none ∨ body.username = some "")
          ∨ (body.password = none ∨ body.password = some "")
          ∨ ∃ password, body.password = some password ∧ jsLength password < 6))
    ∧ (((registerUser H env db body).res =
          { status := 400
            body := [("success", .val (.bool false)),
                     ("message", .val (.str "Please provide all required fields"))] }
        ∨ (registerUser H env db body).res =
          { status := 400
            body := [("success", .val (.bool false)),
                     ("message", .val (.str "Password must be at least 6 characters long"))] })
      → (registerUser H env db body).db = db ∧ (registerUser H env db body).ops = [])
    ∧ (∀ res, registerUserGuards body.raw = some res → (registerUser H env db body).res = res)
    ∧ (registerUserGuards body.raw = none →
        (registerUser H env db body).res ≠
          { status := 400
            body := [("success", .val (.bool false)),
                     ("message", .val (.str "Please provide all required fields"))] }
        ∧ (registerUser H env db body).res ≠
          { status := 400
            body := [("success", .val (.bool false)),
                     ("message",
                      .val (.str "Password must be at least 6 characters long"))] }) := by
  have hguard : (falsy body.full_name || falsy body.email || falsy body.username
        || falsy body.password) = true
      ↔ ((body.full_name = none ∨ body.full_name = some "")
          ∨ (body.email = none ∨ body.email = some "")
          ∨ (body.username = none ∨ body.username = some "")
          ∨ (body.password = none ∨ body.password = some "")) := by
    simp only [Bool.or_eq_true, falsy_iff, or_assoc]
  have hraw := registerUserGuards_raw body
  rw [registerUser_db, registerUser_ops]
  rcases registerUserTry_paths H env db body with
    ⟨hg, hres, hdb, hops⟩ | ⟨hg, password, hpw, ⟨hlen, hres, hdb, hops⟩ | ⟨hlen, hres⟩⟩
  · rw [(registerUser_of_ok H env db body _ hres).1]
    have hgs : registerUserGuards body.raw =
        some (failure 400 "Please provide all required fields") := by
      rw [hraw]
      simp only [hg, if_true]
    refine ⟨⟨fun _ => ?_, fun _ => Or.inl rfl⟩, fun _ => ⟨hdb, hops⟩, ?_, ?_⟩
    · rcases hguard.mp hg with h | h | h | h
      · exact Or.inl h
      · exact Or.inr (Or.inl h)
      · exact Or.inr (Or.inr (Or.inl h))
      · exact Or.inr (Or.inr (Or.inr (Or.inl h)))
    · intro res h
      rw [hgs] at h
      exact Option.some.inj h
    · intro h
      rw [hgs] at h
      cases h
  · rw [(registerUser_of_ok H env db body _ hres).1]
    have hgs : registerUserGuards body.raw =
        some (failure 400 "Password must be at least 6 characters long") := by
      rw [hraw, if_neg (by simp [hg]), hpw]
      simp [hlen]
    refine ⟨⟨fun _ => Or.inr (Or.inr (Or.inr (Or.inr ⟨password, hpw, hlen⟩))),
      fun _ => Or.inr rfl⟩, fun _ => ⟨hdb, hops⟩, ?_, ?_⟩
    · intro res h
      rw [hgs] at h
      exact Option.some.inj h
    · intro h
      rw [hgs] at h
      cases h
  · have hgs : registerUserGuards body.raw = none := by
      rw [hraw, if_neg (by simp [hg]), hpw]
      simp [Nat.not_lt.mpr hlen]
    have hnot : ¬ ((body.full_name = none ∨ body.full_name = some "")
          ∨ (body.email = none ∨ body.email = some "")
          ∨ (body.username = none ∨ body.username = some "")
          ∨ (body.password = none ∨ body.password = some "")
          ∨ ∃ password, body.password = some password ∧ jsLength password < 6) := by
      intro h
      have hg' : ¬ (falsy body.full_name || falsy body.email || falsy body.username
          || falsy body.password) = true := by simp [hg]
      rcases h with h | h | h | h | ⟨q, hq, hqlen⟩
      · exact hg' (hguard.mpr (Or.inl h))
      · exact hg' (hguard.mpr (Or.inr (Or.inl h)))
      · exact hg' (hguard.mpr (Or.inr (Or.inr (Or.inl h))))
      · exact hg' (hguard.mpr (Or.inr (Or.inr (Or.inr h))))
      · rw [hpw] at hq
        cases hq
        omega
    have hother : ¬ ((registerUser H env db body).res = failure 400 "Please provide all required fields"
        ∨ (registerUser H env db body).res =
            failure 400 "Password must be at least 6 characters long") := by
      rcases hres with ⟨e, h⟩ | h | h | ⟨res, h, hstatus, _⟩
      · rw [(registerUser_of_error H env db body e h).1]
        simp [serverError, failure]
      · rw [(registerUser_of_ok H env db body _ h).1]
        simp [failure]
      · rw [(registerUser_of_ok H env db body _ h).1]
        simp [failure]
      · rw [(registerUser_of_ok H env db body _ h).1]
        rintro (h' | h') <;> rw [h'] at hstatus <;> simp [failure] at hstatus
    refine ⟨⟨fun h => absurd h hother, fun h => absurd h hnot⟩, fun h => absurd h hother, ?_, ?_⟩
    · intro res h
      rw [hgs] at h
      cases h
    · intro _
      exact ⟨fun h => hother (Or.inl h), fun h => hother (Or.inr h)⟩

/-- Witness for C5 (amended): Ann's registration with the password `12345`, of
JavaScript length 5, is answered with a validation error and leaves the store
that holds Bob untouched. -/
theorem registerUser_validation_witness :
    ((registerUser demoHasher demoEnv ⟨[bob], none⟩ shortBody).res =
          { status := 400
            body := [("success", .val (.bool false)),
                     ("message", .val (.str "Please provide all required fields"))] }
        ∨ (registerUser demoHasher demoEnv ⟨[bob], none⟩ shortBody).res =
          { status := 400
            body := [("success", .val (.bool false)),
                     ("message", .val (.str "Password must be at least 6 characters long"))] })
    ∧ ((registerUser demoHasher demoEnv ⟨[bob], none⟩ shortBody).db = ⟨[bob], none⟩
        ∧ (registerUser demoHasher demoEnv ⟨[bob], none⟩ shortBody).ops = [])
    ∧ (registerUser demoHasher demoEnv ⟨[bob], none⟩ shortBody).res =
        { status := 400
          body := [("success", .val (.bool false)),
                   ("message", .val (.str "Password must be at least 6 characters long"))] } :=
  ⟨(registerUser_validation demoHasher demoEnv ⟨[bob], none⟩ shortBody).1.mpr
     (Or.inr (Or.inr (Or.inr (Or.inr ⟨"12345", rfl, by decide⟩)))),
   (registerUser_validation demoHasher demoEnv ⟨[bob], none⟩ shortBody).2.1
     ((registerUser_validation demoHasher demoEnv ⟨[bob], none⟩ shortBody).1.mpr
       (Or.inr (Or.inr (Or.inr (Or.inr ⟨"12345", rfl, by decide⟩))))),
   (registerUser_validation demoHasher demoEnv ⟨[bob], none⟩ shortBody).2.2.1 _ (by decide)⟩

theorem loginUser_of_ok (H : PasswordHasher) (env : Env) (db : Db) (body : LoginBody)
    (res : Response) (h : (loginUserTry H env db body).result = .ok res) :
    (loginUser H env db body).res = res ∧ (loginUser H env db body).console = [] := by
  unfold loginUser
  simp only [h, and_self]

theorem loginUser_of_error (H : PasswordHasher) (env : Env) (db : Db) (body : LoginBody)
    (error : JsError) (h : (loginUserTry H env db body).result = .error error) :
    (loginUser H env db body).res = serverError "Server error during login" error
    ∧ (loginUser H env db body).console = [("Login error:", error)] := by
  unfold loginUser
  simp only [h, and_self]

/-- Every path of the `try` block of `loginUser`. -/
theorem loginUserTry_paths (H : PasswordHasher) (env : Env) (db : Db) (body : LoginBody) :
    (∃ e, (loginUserTry H env db body).result = .error e)
    ∨ (loginUserTry H env db body).result =
        .ok (failure 400 "Please provide username/email and password")
    ∨ (loginUserTry H env db body).result = .ok (failure 401 "Invalid credentials")
    ∨ ∃ res, (loginUserTry H env db body).result = .ok res ∧ res.status = 200
        ∧ dataKeys res = some ["_id", "full_name", "email", "username", "token"] := by
  rcases body with ⟨identifier, password⟩
  cases identifier <;> cases password
  all_goals try (right; left; simp [loginUserTry, falsy]; done)
  rename_i identifier password
  by_cases hg : identifier = "" ∨ password = ""
  · right; left
    simp [loginUserTry, falsy, hg]
  · cases hfind : findOne db identifier identifier with
    | error err =>
      left
      simp [loginUserTry, falsy, hg, hfind]
    | ok found =>
      cases found with
      | none =>
        right; right; left
        simp [loginUserTry, falsy, hg, hfind]
      | some user =>
        cases hcmp : H.compare password user.password with
        | false =>
          right; right; left
          simp [loginUserTry, falsy, hg, hfind, hcmp]
        | true =>
          cases htok : generateToken env user._id with
          | error err =>
            left
            simp [loginUserTry, falsy, hg, hfind, hcmp, htok]
          | ok token =>
            right; right; right
            simp [loginUserTry, falsy, hg, hfind, hcmp, htok, dataKeys]
            rfl

/-- C6: the `data` object of every success response carries no password or
password-hash field, whatever record it is built from (every `User` record
carries its stored `password`): its keys are exactly `_id`, `full_name`,
`email`, `username`, `created_at`, `token` for `registerUser` (201), `_id`,
`full_name`, `email`, `username`, `token` for `loginUser` (200), and `_id`,
`full_name`, `email`, `username`, `created_at` for `getMe` (200). -/
theorem success_data_keys :
    (∀ (H : PasswordHasher) (env : Env) (db : Db) (body : RegisterBody),
      (registerUser H env db body).res.status = 201 →
      dataKeys (registerUser H env db body).res =
        some ["_id", "full_name", "email", "username", "created_at", "token"])
    ∧ (∀ (H : PasswordHasher) (env : Env) (db : Db) (body : LoginBody),
      (loginUser H env db body).res.status = 200 →
      dataKeys (loginUser H env db body).res =
        some ["_id", "full_name", "email", "username", "token"])
    ∧ (∀ (typeError : String) (req : MeRequest),
      (getMe typeError req).1.status = 200 →
      dataKeys (getMe typeError req).1 =
        some ["_id", "full_name", "email", "username", "created_at"]) := by
  refine ⟨?_, ?_, ?_⟩
  · intro H env db body hstatus
    rcases registerUserTry_paths H env db body with
      ⟨_, hres, _⟩ | ⟨_, _, _, ⟨_, hres, _⟩ | ⟨_, hres⟩⟩
    · rw [(registerUser_of_ok H env db body _ hres).1] at hstatus
      simp [failure] at hstatus
    · rw [(registerUser_of_ok H env db body _ hres).1] at hstatus
      simp [failure] at hstatus
    · rcases hres with ⟨e, h⟩ | h | h | ⟨res, h, _, hkeys⟩
      · rw [(registerUser_of_error H env db body e h).1] at hstatus
        simp [serverError] at hstatus
      · rw [(registerUser_of_ok H env db body _ h).1] at hstatus
        simp [failure] at hstatus
      · rw [(registerUser_of_ok H env db body _ h).1] at hstatus
        simp [failure] at hstatus
      · rw [(registerUser_of_ok H env db body _ h).1]
        exact hkeys
  · intro H env db body hstatus
    rcases loginUserTry_paths H env db body with ⟨e, h⟩ | h | h | ⟨res, h, _, hkeys⟩
    · rw [(loginUser_of_error H env db body e h).1] at hstatus
      simp [serverError] at hstatus
    · rw [(loginUser_of_ok H env db body _ h).1] at hstatus
      simp [failure] at hstatus
    · rw [(loginUser_of_ok H env db body _ h).1] at hstatus
      simp [failure] at hstatus
    · rw [(loginUser_of_ok H env db body _ h).1]
      exact hkeys
  · intro typeError req hstatus
    rcases req with ⟨user⟩
    cases user with
    | none => simp [getMe, getMeTry, serverError] at hstatus
    | some user =>
      simp [getMe, getMeTry, dataKeys]
      rfl

/-- Witness for C6: the three success responses for Ann. -/
theorem success_data_keys_witness :
    dataKeys (registerUser demoHasher demoEnv ⟨[], none⟩ annBody).res =
        some ["_id", "full_name", "email", "username", "created_at", "token"]
    ∧ dataKeys (loginUser demoHasher demoEnv ⟨[ann], none⟩
          ⟨some "ann@x.com", some "secret1"⟩).res =
        some ["_id", "full_name", "email", "username", "token"]
    ∧ dataKeys (getMe "Cannot read properties of undefined" ⟨some ann⟩).1 =
        some ["_id", "full_name", "email", "username", "created_at"] :=
  ⟨success_data_keys.1 demoHasher demoEnv ⟨[], none⟩ annBody (by decide),
   success_data_keys.2.1 demoHasher demoEnv ⟨[ann], none⟩ ⟨some "ann@x.com", some "secret1"⟩
     (by decide),
   success_data_keys.2.2 "Cannot read properties of undefined" ⟨some ann⟩ (by decide)⟩

/-! ## Tokens -/

/-- C7: a token produced by `generateToken` at time `env.now` carries exactly
the identifier it was given and the expiry `env.now + 2592000` (30 days in
seconds); validation of it under the same secret succeeds and returns the
identifier at every time from `env.now` up to, not including, the expiry, and
fails at every time from the expiry on. -/
theorem generateToken_window (env : Env) (id : Nat) (token : Token)
    (h : generateToken env id = .ok token) :
    (∃ key, env.JWT_SECRET = some key
      ∧ token = { id := id, iat := env.now, exp := env.now + 2592000, sig := some key })
    ∧ (∀ clock, env.now ≤ clock → clock < env.now + 2592000 →
        ValidateToken env.JWT_SECRET clock token = .ok id)
    ∧ (∀ clock, env.now + 2592000 ≤ clock →
        ValidateToken env.JWT_SECRET clock token = .error .AuthenticationError) := by
  unfold generateToken at h
  cases hs : env.JWT_SECRET with
  | none => simp [hs] at h
  | some key =>
    by_cases hk : key = ""
    · simp [hs, hk] at h
    · simp only [hs, hk, if_false, Except.ok.injEq] at h
      subst h
      refine ⟨⟨key, rfl, by simp [thirtyDays]⟩, ?_, ?_⟩
      · intro clock _ hlt
        have : ¬ env.now + thirtyDays ≤ clock := by simp [thirtyDays]; omega
        simp [ValidateToken, hk, this]
      · intro clock hle
        have : env.now + thirtyDays ≤ clock := by simp [thirtyDays]; omega
        simp [ValidateToken, hk, this]

/-- Witness for C7: the token signed for identifier 7 at time 1000. -/
theorem generateToken_window_witness :
    (∃ key, demoEnv.JWT_SECRET = some key
      ∧ ({ id := 7, iat := 1000, exp := 2593000, sig := some "s3cr3t" } : Token) =
          { id := 7, iat := demoEnv.now, exp := demoEnv.now + 2592000, sig := some key })
    ∧ (∀ clock, demoEnv.now ≤ clock → clock < demoEnv.now + 2592000 →
        ValidateToken demoEnv.JWT_SECRET clock
          { id := 7, iat := 1000, exp := 2593000, sig := some "s3cr3t" } = .ok 7)
    ∧ (∀ clock, demoEnv.now + 2592000 ≤ clock →
        ValidateToken demoEnv.JWT_SECRET clock
          { id := 7, iat := 1000, exp := 2593000, sig := some "s3cr3t" } =
          .error .AuthenticationError) :=
  generateToken_window demoEnv 7 { id := 7, iat := 1000, exp := 2593000, sig := some "s3cr3t" } rfl

/-! ## Failures -/

/-- C8 (as stated, refuted): with `req.user` absent, the response of `getMe`
is the unexpected-error response itself, status 500 with message `Server error
retrieving user data`, not a response distinct from it. -/
theorem getMe_absent_user_counterexample :
    (getMe "Cannot read properties of undefined" ⟨none⟩).1.status = 500
    ∧ (getMe "Cannot read properties of undefined" ⟨none⟩).1.body.lookup "message" =
        some (.val (.str "Server error retrieving user data")) := by
  decide

/-- C8 (amended): for every request to `getMe` in which `req.user` is absent,
reading `user._id` throws, and `getMe` answers with the unexpected-error
response: status 500, `success` false, the message `Server error retrieving
user data` and the text of the thrown error; `getMe` has no not-found
response. -/
theorem getMe_absent_user (typeError : String) :
    getMe typeError ⟨none⟩ =
      ({ status := 500
         body := [("success", .val (.bool false)),
                  ("message", .val (.str "Server error retrieving user data")),
                  ("error", .val (.str typeError))] },
       [("Get user error:", ⟨typeError⟩)]) := by
  rfl

/-- C9 (as stated, refuted): when the storage engine is unreachable, the body
of the 500 response of `registerUser` has a third field, `error`, holding the
message text of the exception, and the response changes with the exception. -/
theorem registerUser_failure_detail_counterexample :
    (registerUser demoHasher demoEnv downDb annBody).res =
        { status := 500
          body := [("success", .val (.bool false)),
                   ("message", .val (.str "Server error during registration")),
                   ("error", .val (.str "connect ECONNREFUSED 127.0.0.1:27017"))] }
    ∧ (registerUser demoHasher demoEnv downDb annBody).res ≠
        (registerUser demoHasher demoEnv slowDb annBody).res := by
  decide

/-- C9 (amended): for every exception thrown inside the `try` block of
`registerUser`, `loginUser` or `getMe`, the response is status 500 with
`success` false, a fixed message that does not depend on the exception, and a
field `error` holding the message text of the exception; the exception is also
logged on the server. -/
theorem unexpected_failure_response :
    (∀ (H : PasswordHasher) (env : Env) (db : Db) (body : RegisterBody) (error : JsError),
      (registerUserTry H env db body).result = .error error →
      (registerUser H env db body).res =
          { status := 500
            body := [("success", .val (.bool false)),
                     ("message", .val (.str "Server error during registration")),
                     ("error", .val (.str error.message))] }
      ∧ (registerUser H env db body).console = [("Registration error:", error)])
    ∧ (∀ (H : PasswordHasher) (env : Env) (db : Db) (body : LoginBody) (error : JsError),
      (loginUserTry H env db body).result = .error error →
      (loginUser H env db body).res =
          { status := 500
            body := [("success", .val (.bool false)),
                     ("message", .val (.str "Server error during login")),
                     ("error", .val (.str error.message))] }
      ∧ (loginUser H env db body).console = [("Login error:", error)])
    ∧ (∀ (typeError : String) (req : MeRequest) (error : JsError),
      getMeTry typeError req = .error error →
      getMe typeError req =
        ({ status := 500
           body := [("success", .val (.bool false)),
                    ("message", .val (.str "Server error retrieving user data")),
                    ("error", .val (.str error.message))] },
         [("Get user error:", error)])) := by
  refine ⟨?_, ?_, ?_⟩
  · intro H env db body error h
    exact registerUser_of_error H env db body error h
  · intro H env db body error h
    exact loginUser_of_error H env db body error h
  · intro typeError req error h
    unfold getMe
    simp only [h, serverError]

/-- Witness for C9 (amended): the storage engine is unreachable during a
registration and during a login, and `req.user` is absent in `getMe`. -/
theorem unexpected_failure_response_witness :
    ((registerUser demoHasher demoEnv downDb annBody).res =
          { status := 500
            body := [("success", .val (.bool false)),
                     ("message", .val (.str "Server error during registration")),
                     ("error", .val (.str "connect ECONNREFUSED 127.0.0.1:27017"))] }
      ∧ (registerUser demoHasher demoEnv downDb annBody).console =
          [("Registration error:", ⟨"connect ECONNREFUSED 127.0.0.1:27017"⟩)])
    ∧ ((loginUser demoHasher demoEnv downDb ⟨some "annlee", some "secret1"⟩).res =
          { status := 500
            body := [("success", .val (.bool false)),
                     ("message", .val (.str "Server error during login")),
                     ("error", .val (.str "connect ECONNREFUSED 127.0.0.1:27017"))] }
      ∧ (loginUser demoHasher demoEnv downDb ⟨some "annlee", some "secret1"⟩).console =
          [("Login error:", ⟨"connect ECONNREFUSED 127.0.0.1:27017"⟩)])
    ∧ getMe "Cannot read properties of undefined" ⟨none⟩ =
        ({ status := 500
           body := [("success", .val (.bool false)),
                    ("message", .val (.str "Server error retrieving user data")),
                    ("error", .val (.str "Cannot read properties of undefined"))] },
         [("Get user error:", ⟨"Cannot read properties of undefined"⟩)]) :=
  ⟨unexpected_failure_response.1 demoHasher demoEnv downDb annBody
     ⟨"connect ECONNREFUSED 127.0.0.1:27017"⟩ rfl,
   unexpected_failure_response.2.1 demoHasher demoEnv downDb ⟨some "annlee", some "secret1"⟩
     ⟨"connect ECONNREFUSED 127.0.0.1:27017"⟩ rfl,
   unexpected_failure_response.2.2 "Cannot read properties of undefined" ⟨none⟩
     ⟨"Cannot read properties of undefined"⟩ rfl⟩

/-! ## The stored credential -/

theorem registerUserCreate_of_ok (H : PasswordHasher) (env : Env) (db : Db)
    (full_name email username password : String) (ops : List StoreOp) (res : Response)
    (h : (registerUserCreate H env db full_name email username password ops).result = .ok res) :
    (registerUserCreate H env db full_name email username password ops).db =
      { db with users := db.users ++
          [createdUser H env db full_name email username password] } := by
  unfold registerUserCreate at h ⊢
  rcases create_cases H env db full_name email username password with ⟨e, hc⟩ | ⟨_, _, hc⟩
  · rw [hc] at h
    simp at h
  · rw [hc]
    dsimp only
    split <;> rfl

/-- C10: on successful registration (201) the record `registerUser` persists
holds the hashed representation of the password and never the original secret:
the body carried a password `P` of (JavaScript) length at least 6, the store
gained exactly one record, and that record's `password` field is the hash of
`P` and differs from `P`. -/
theorem registerUser_stores_hash (H : PasswordHasher) (env : Env) (db : Db)
    (body : RegisterBody) (h : (registerUser H env db body).res.status = 201) :
    ∃ full_name email username password stored,
      body = ⟨some full_name, some email, some username, some password⟩
      ∧ 6 ≤ jsLength password
      ∧ (registerUser H env db body).db.users = db.users ++ [stored]
      ∧ stored.email = email ∧ stored.username = username
      ∧ stored.password = H.hash env.salt password
      ∧ stored.password ≠ password := by
  rcases registerUserTry_cases H env db body with
    ⟨_, _, hstatus⟩ | ⟨fn, e, u, p, hbody, _, hlen, _, htry⟩
  · exfalso
    cases hres : (registerUserTry H env db body).result with
    | error err =>
      rw [(registerUser_of_error H env db body err hres).1] at h
      simp [serverError] at h
    | ok res =>
      rw [(registerUser_of_ok H env db body res hres).1] at h
      have := hstatus res hres
      omega
  · refine ⟨fn, e, u, p, createdUser H env db fn e u p, hbody, hlen, ?_, rfl, rfl, rfl,
      H.hash_ne env.salt p⟩
    cases hres : (registerUserTry H env db body).result with
    | error err =>
      rw [(registerUser_of_error H env db body err hres).1] at h
      simp [serverError] at h
    | ok res =>
      rw [registerUser_db, htry]
      rw [htry] at hres
      rw [registerUserCreate_of_ok H env db fn e u p _ res hres]

/-- Witness for C10: scenario A, Ann registers with the password `secret1`. -/
theorem registerUser_stores_hash_witness :
    ∃ full_name email username password stored,
      annBody = ⟨some full_name, some email, some username, some password⟩
      ∧ 6 ≤ jsLength password
      ∧ (registerUser demoHasher demoEnv ⟨[], none⟩ annBody).db.users = [] ++ [stored]
      ∧ stored.email = email ∧ stored.username = username
      ∧ stored.password = demoHasher.hash demoEnv.salt password
      ∧ stored.password ≠ password :=
  registerUser_stores_hash demoHasher demoEnv ⟨[], none⟩ annBody (by decide)

end AuthController

/-! # Client service: theorems -/

namespace Api

open AuthController

theorem getItem_removeItem_self (ls : Storage) (key : String) :
    getItem (removeItem ls key) key = none := by
  induction ls with
  | nil => rfl
  | cons entry rest ih =>
    unfold getItem removeItem at ih ⊢
    by_cases h : entry.1 = key
    · simp only [List.filter_cons, h, decide_True, Bool.not_true, Bool.false_eq_true, if_false]
      exact ih
    · have hne : (key == entry.1) = false := by
        simp only [beq_eq_false_iff_ne, ne_eq]
        exact fun h' => h h'.symm
      simp only [List.filter_cons, h, decide_False, Bool.not_false, if_true]
      rcases entry with ⟨k, v⟩
      simp only [List.lookup_cons, hne]
      exact ih

theorem getItem_removeItem_other (ls : Storage) (key other : String) (hne : other ≠ key) :
    getItem (removeItem ls key) other = getItem ls other := by
  induction ls with
  | nil => rfl
  | cons entry rest ih =>
    unfold getItem removeItem at ih ⊢
    rcases entry with ⟨k, v⟩
    by_cases h : k = key
    · have hk : (other == k) = false := by
        simp only [beq_eq_false_iff_ne, ne_eq, h]
        exact hne
      simp only [List.filter_cons, h, decide_True, Bool.not_true, Bool.false_eq_true, if_false,
        List.lookup_cons]
      rw [← h, hk]
      rw [h]
      exact ih
    · simp only [List.filter_cons, h, decide_False, Bool.not_false, if_true, List.lookup_cons]
      rw [ih]

theorem getItem_setItem_self (ls : Storage) (key value : String) :
    getItem (setItem ls key value) key = some value := by
  simp [getItem, setItem, List.lookup_cons]

theorem getItem_setItem_other (ls : Storage) (key value other : String) (hne : other ≠ key) :
    getItem (setItem ls key value) other = getItem ls other := by
  have h := getItem_removeItem_other ls key other hne
  unfold getItem setItem at *
  have hk : (other == key) = false := by
    simp only [beq_eq_false_iff_ne, ne_eq]
    exact hne
  simp only [List.lookup_cons, hk]
  exact h

theorem logout_clears (ls : Storage) :
    getItem (logout ls) "token" = none ∧ getItem (logout ls) "user" = none := by
  unfold logout
  refine ⟨?_, getItem_removeItem_self _ "user"⟩
  rw [getItem_removeItem_other _ "user" "token" (by decide)]
  exact getItem_removeItem_self ls "token"

theorem isAuthenticated_of_absent (ls : Storage) (h : getItem ls "token" = none) :
    (isAuthenticated ls).1 = false := by
  simp [isAuthenticated, h, falsy]

theorem getStoredUser_of_absent (J : JsonBuiltins) (ls : Storage)
    (h : getItem ls "user" = none) : (getStoredUser J ls).1 = .ok none := by
  simp [getStoredUser, h, falsy]

/-- C11 (as stated, refuted): with a `token` entry stored whose value is the
empty string, `isAuthenticated()` returns false. -/
theorem isAuthenticated_empty_token_counterexample :
    getItem [("token", "")] "token" = some "" ∧ (isAuthenticated [("token", "")]).1 = false := by
  decide

/-- C11 (amended): for every state of `localStorage`, `isAuthenticated()`
returns true if and only if a `token` entry with a non-empty value is stored;
the result is a function of that entry alone (no signature or expiry check),
and storage is left as it was. -/
theorem isAuthenticated_iff (ls : Storage) :
    ((isAuthenticated ls).1 = true ↔ ∃ value, getItem ls "token" = some value ∧ value ≠ "")
    ∧ (isAuthenticated ls).2 = ls := by
  refine ⟨?_, rfl⟩
  unfold isAuthenticated
  cases h : getItem ls "token" with
  | none => simp [falsy]
  | some value => simp [falsy]

theorem getCurrentUser_of_no_token (fetched : String → Except CaughtError ApiBody)
    (ls : Storage) (h : getItem ls "token" = none ∨ getItem ls "token" = some "") :
    getCurrentUser fetched ls =
      (.error (.fallback "Failed to get user data"),
       removeItem (removeItem ls "token") "user") := by
  rcases h with h | h <;> simp [getCurrentUser, h, falsy, rethrow]

theorem getCurrentUser_of_rejected (fetched : String → Except CaughtError ApiBody)
    (ls : Storage) (token : String) (error : CaughtError)
    (htoken : getItem ls "token" = some token) (hne : token ≠ "")
    (hfetched : fetched token = .error error) :
    getCurrentUser fetched ls =
      (.error (rethrow error "Failed to get user data"),
       removeItem (removeItem ls "token") "user") := by
  simp [getCurrentUser, htoken, falsy, hne, hfetched]

theorem getCurrentUser_of_resolved (fetched : String → Except CaughtError ApiBody)
    (ls : Storage) (token : String) (body : ApiBody)
    (htoken : getItem ls "token" = some token) (hne : token ≠ "")
    (hfetched : fetched token = .ok body) :
    getCurrentUser fetched ls = (.ok body, ls) := by
  simp [getCurrentUser, htoken, falsy, hne, hfetched]

/-- C12: the token and the snapshot are cleared together.  For every state of
`localStorage`:
* after `logout()` neither the `token` nor the `user` entry remains,
  `isAuthenticated()` is false and `getStoredUser()` is `null`;
* a `getCurrentUser()` call made with no token present (no entry, or an empty
  one) sends no request, throws `{ message: 'Failed to get user data' }`, and
  leaves neither entry;
* a `getCurrentUser()` call whose request is rejected, with or without a
  response, throws `error.response?.data` or the same fallback, and leaves
  neither entry;
* a `getCurrentUser()` call whose request resolves returns `response.data` and
  leaves storage as it was;
* the same read from the outcome: whenever the call throws, neither entry
  remains, and whenever it returns, storage is as it was. -/
theorem token_and_snapshot_cleared_together (J : JsonBuiltins) (ls : Storage) :
    (getItem (logout ls) "token" = none ∧ getItem (logout ls) "user" = none
      ∧ (isAuthenticated (logout ls)).1 = false
      ∧ (getStoredUser J (logout ls)).1 = .ok none)
    ∧ (∀ (fetched : String → Except CaughtError ApiBody),
        (getItem ls "token" = none ∨ getItem ls "token" = some "") →
        (getCurrentUser fetched ls).1 = .error (.fallback "Failed to get user data")
        ∧ getItem (getCurrentUser fetched ls).2 "token" = none
        ∧ getItem (getCurrentUser fetched ls).2 "user" = none
        ∧ (isAuthenticated (getCurrentUser fetched ls).2).1 = false
        ∧ (getStoredUser J (getCurrentUser fetched ls).2).1 = .ok none)
    ∧ (∀ (fetched : String → Except CaughtError ApiBody) (token : String)
        (error : CaughtError),
        getItem ls "token" = some token → token ≠ "" → fetched token = .error error →
        (getCurrentUser fetched ls).1 =
          .error (match error.responseData with
                  | some body => .responseData body
                  | none => .fallback "Failed to get user data")
        ∧ getItem (getCurrentUser fetched ls).2 "token" = none
        ∧ getItem (getCurrentUser fetched ls).2 "user" = none
        ∧ (isAuthenticated (getCurrentUser fetched ls).2).1 = false
        ∧ (getStoredUser J (getCurrentUser fetched ls).2).1 = .ok none)
    ∧ (∀ (fetched : String → Except CaughtError ApiBody) (token : String) (body : ApiBody),
        getItem ls "token" = some token → token ≠ "" → fetched token = .ok body →
        getCurrentUser fetched ls = (.ok body, ls))
    ∧ (∀ (fetched : String → Except CaughtError ApiBody) (thrown : Thrown) (after : Storage),
        getCurrentUser fetched ls = (.error thrown, after) →
        getItem after "token" = none ∧ getItem after "user" = none
        ∧ (isAuthenticated after).1 = false
        ∧ (getStoredUser J after).1 = .ok none)
    ∧ (∀ (fetched : String → Except CaughtError ApiBody) (body : ApiBody) (after : Storage),
        getCurrentUser fetched ls = (.ok body, after) → after = ls) := by
  have hlogout := logout_clears ls
  have hcleared : getItem (removeItem (removeItem ls "token") "user") "token" = none
      ∧ getItem (removeItem (removeItem ls "token") "user") "user" = none
      ∧ (isAuthenticated (removeItem (removeItem ls "token") "user")).1 = false
      ∧ (getStoredUser J (removeItem (removeItem ls "token") "user")).1 = .ok none :=
    ⟨hlogout.1, hlogout.2, isAuthenticated_of_absent _ hlogout.1,
      getStoredUser_of_absent J _ hlogout.2⟩
  refine ⟨hcleared, ?_, ?_, ?_, ?_, ?_⟩
  · intro fetched h
    rw [getCurrentUser_of_no_token fetched ls h]
    exact ⟨rfl, hcleared⟩
  · intro fetched token error htoken hne hfetched
    rw [getCurrentUser_of_rejected fetched ls token error htoken hne hfetched]
    exact ⟨rfl, hcleared⟩
  · intro fetched token body htoken hne hfetched
    exact getCurrentUser_of_resolved fetched ls token body htoken hne hfetched
  · intro fetched thrown after h
    have hafter : after = logout ls := by
      unfold getCurrentUser at h
      dsimp only at h
      split at h
      · simp at h
      · simp only [Prod.mk.injEq] at h
        exact h.2.symm
    rw [hafter]
    exact hcleared
  · intro fetched body after h
    unfold getCurrentUser at h
    dsimp only at h
    split at h
    · simp only [Prod.mk.injEq] at h
      exact h.2.symm
    · simp at h

/-- Witness for C12: from a stored session, `getCurrentUser()` is run with a
request that fails on the network (no response), with a request the server
rejects, and with a request that resolves; and from a storage without token. -/
theorem token_and_snapshot_cleared_together_witness :
    (getItem (logout earlierSession) "token" = none
      ∧ getItem (logout earlierSession) "user" = none
      ∧ (isAuthenticated (logout earlierSession)).1 = false
      ∧ (getStoredUser demoJson (logout earlierSession)).1 = .ok none)
    ∧ (getCurrentUser (fun _ => .ok annProfile) [("theme", "dark"), ("user", "stale")] =
        (.error (.fallback "Failed to get user data"), [("theme", "dark")]))
    ∧ (getCurrentUser (fun _ => .error ⟨none⟩) earlierSession =
        (.error (.fallback "Failed to get user data"), [("theme", "dark")]))
    ∧ (getCurrentUser (fun _ => .error ⟨some tokenRejected⟩) earlierSession =
        (.error (.responseData tokenRejected), [("theme", "dark")]))
    ∧ (getCurrentUser (fun _ => .ok annProfile) earlierSession = (.ok annProfile, earlierSession))
    ∧ (getItem [("theme", "dark")] "token" = none ∧ getItem [("theme", "dark")] "user" = none
      ∧ (isAuthenticated [("theme", "dark")]).1 = false
      ∧ (getStoredUser demoJson [("theme", "dark")]).1 = .ok none) :=
  ⟨(token_and_snapshot_cleared_together demoJson earlierSession).1,
   Prod.ext
     ((token_and_snapshot_cleared_together demoJson [("theme", "dark"), ("user", "stale")]).2.1
       (fun _ => .ok annProfile) (Or.inl rfl)).1
     rfl,
   Prod.ext
     ((token_and_snapshot_cleared_together demoJson earlierSession).2.2.1
       (fun _ => .error ⟨none⟩) "old.token.value" ⟨none⟩ rfl (by decide) rfl).1
     rfl,
   Prod.ext
     ((token_and_snapshot_cleared_together demoJson earlierSession).2.2.1
       (fun _ => .error ⟨some tokenRejected⟩) "old.token.value" ⟨some tokenRejected⟩
       rfl (by decide) rfl).1
     rfl,
   (token_and_snapshot_cleared_together demoJson earlierSession).2.2.2.1
     (fun _ => .ok annProfile) "old.token.value" annProfile rfl (by decide) rfl,
   (token_and_snapshot_cleared_together demoJson earlierSession).2.2.2.2.1
     (fun _ => .error ⟨some tokenRejected⟩) (.responseData tokenRejected)
     [("theme", "dark")] rfl⟩

theorem storeSession_success (J : JsonBuiltins) (ls : Storage) (body : ApiBody)
    (data : AuthData) (token : String)
    (hsuccess : body.success = true) (hdata : body.data = some data)
    (htoken : data.token = some token) (htoken_ne : token ≠ "") :
    storeSession J body ls =
      (.ok body, setItem (setItem ls "token" token) "user" (J.stringify (snapshot data))) := by
  simp [storeSession, hsuccess, hdata, htoken, falsy, htoken_ne]

theorem stored_session (J : JsonBuiltins) (ls : Storage) (data : AuthData) (token : String)
    (hnonempty : J.stringify (snapshot data) ≠ "")
    (hparse : J.parse (J.stringify (snapshot data)) = .ok (snapshot data)) :
    getItem (setItem (setItem ls "token" token) "user" (J.stringify (snapshot data))) "token"
      = some token
    ∧ (getStoredUser J
        (setItem (setItem ls "token" token) "user" (J.stringify (snapshot data)))).1
      = .ok (some (snapshot data)) := by
  constructor
  · rw [getItem_setItem_other _ "user" _ "token" (by decide)]
    exact getItem_setItem_self ls "token" token
  · unfold getStoredUser
    simp [getItem_setItem_self, falsy, hnonempty, hparse]

theorem storeSession_error_keeps (J : JsonBuiltins) (ls : Storage) (body : ApiBody)
    (error : CaughtError) (after : Storage)
    (h : storeSession J body ls = (.error error, after)) : after = ls := by
  unfold storeSession at h
  split at h
  · split at h
    · simp only [Prod.mk.injEq] at h
      exact h.2.symm
    · split at h <;> simp at h
  · simp at h

/-- C13: for every successful register or login response carrying a non-empty
token, the client afterwards holds exactly that token under `token`, and
`getStoredUser()` returns the object with exactly the four fields `_id`,
`full_name`, `email`, `username` of the response (`JSON.parse` being taken to
read back what `JSON.stringify` wrote for that object); every register or
login call whose request is rejected throws to the caller, and every register
or login call that throws leaves `localStorage` unchanged. -/
theorem session_persisted_or_untouched (J : JsonBuiltins) (ls : Storage) :
    (∀ (body : ApiBody) (data : AuthData) (token : String),
      body.success = true → body.data = some data → data.token = some token → token ≠ "" →
      J.stringify (snapshot data) ≠ "" →
      J.parse (J.stringify (snapshot data)) = .ok (snapshot data) →
      ((register J (.ok body) ls).1 = .ok body
        ∧ getItem (register J (.ok body) ls).2 "token" = some token
        ∧ (getStoredUser J (register J (.ok body) ls).2).1 =
            .ok (some (.obj [("_id", .str data._id), ("full_name", .str data.full_name),
                             ("email", .str data.email), ("username", .str data.username)])))
      ∧ ((login J (.ok body) ls).1 = .ok body
        ∧ getItem (login J (.ok body) ls).2 "token" = some token
        ∧ (getStoredUser J (login J (.ok body) ls).2).1 =
            .ok (some (.obj [("_id", .str data._id), ("full_name", .str data.full_name),
                             ("email", .str data.email), ("username", .str data.username)]))))
    ∧ (∀ (error : CaughtError),
      (register J (.error error) ls).1 = .error (rethrow error "Registration failed")
      ∧ (login J (.error error) ls).1 = .error (rethrow error "Login failed"))
    ∧ (∀ (posted : Except CaughtError ApiBody) (thrown : Thrown),
      ((register J posted ls).1 = .error thrown → (register J posted ls).2 = ls)
      ∧ ((login J posted ls).1 = .error thrown → (login J posted ls).2 = ls)) := by
  constructor
  · intro body data token hsuccess hdata htoken htoken_ne hnonempty hparse
    have hstore := storeSession_success J ls body data token hsuccess hdata htoken htoken_ne
    have hstored := stored_session J ls data token hnonempty hparse
    have hregister : register J (.ok body) ls =
        (.ok body, setItem (setItem ls "token" token) "user" (J.stringify (snapshot data))) := by
      simp only [register, hstore]
    have hlogin : login J (.ok body) ls =
        (.ok body, setItem (setItem ls "token" token) "user" (J.stringify (snapshot data))) := by
      simp only [login, hstore]
    rw [hregister, hlogin]
    exact ⟨⟨rfl, hstored.1, hstored.2⟩, ⟨rfl, hstored.1, hstored.2⟩⟩
  · refine ⟨fun error => ⟨rfl, rfl⟩, ?_⟩
    intro posted thrown
    have hkeep := storeSession_error_keeps J ls
    constructor
    · intro h
      cases posted with
      | error error => rfl
      | ok body =>
        cases hs : storeSession J body ls with
        | mk result after =>
          cases result with
          | ok value => simp [register, hs] at h
          | error error =>
            have := hkeep body error after hs
            simp [register, hs, this]
    · intro h
      cases posted with
      | error error => rfl
      | ok body =>
        cases hs : storeSession J body ls with
        | mk result after =>
          cases result with
          | ok value => simp [login, hs] at h
          | error error =>
            have := hkeep body error after hs
            simp [login, hs, this]

set_option maxRecDepth 100000 in
/-- Witness for C13: Ann's registration response over an earlier session, and
a rejected login. -/
theorem session_persisted_or_untouched_witness :
    (((register demoJson (.ok annRegistered) earlierSession).1 = .ok annRegistered
        ∧ getItem (register demoJson (.ok annRegistered) earlierSession).2 "token" =
            some "eyJhbGciOi.eyJpZCI6.c2ln"
        ∧ (getStoredUser demoJson (register demoJson (.ok annRegistered) earlierSession).2).1 =
            .ok (some (.obj [("_id", .str annData._id), ("full_name", .str annData.full_name),
                             ("email", .str annData.email),
                             ("username", .str annData.username)])))
      ∧ ((login demoJson (.ok annRegistered) earlierSession).1 = .ok annRegistered
        ∧ getItem (login demoJson (.ok annRegistered) earlierSession).2 "token" =
            some "eyJhbGciOi.eyJpZCI6.c2ln"
        ∧ (getStoredUser demoJson (login demoJson (.ok annRegistered) earlierSession).2).1 =
            .ok (some (.obj [("_id", .str annData._id), ("full_name", .str annData.full_name),
                             ("email", .str annData.email),
                             ("username", .str annData.username)]))))
    ∧ ((register demoJson (.error ⟨some invalidCredentials⟩) earlierSession).1 =
          .error (rethrow ⟨some invalidCredentials⟩ "Registration failed")
      ∧ (login demoJson (.error ⟨some invalidCredentials⟩) earlierSession).1 =
          .error (rethrow ⟨some invalidCredentials⟩ "Login failed"))
    ∧ (register demoJson (.error ⟨some invalidCredentials⟩) earlierSession).2 = earlierSession
    ∧ (login demoJson (.error ⟨some invalidCredentials⟩) earlierSession).2 = earlierSession :=
  ⟨(session_persisted_or_untouched demoJson earlierSession).1 annRegistered annData
     "eyJhbGciOi.eyJpZCI6.c2ln" rfl rfl rfl (by decide) (by decide) rfl,
   (session_persisted_or_untouched demoJson earlierSession).2.1 ⟨some invalidCredentials⟩,
   ((session_persisted_or_untouched demoJson earlierSession).2.2
     (.error ⟨some invalidCredentials⟩) (.responseData invalidCredentials)).1 rfl,
   ((session_persisted_or_untouched demoJson earlierSession).2.2
     (.error ⟨some invalidCredentials⟩) (.responseData invalidCredentials)).2 rfl⟩

end Api

/-! # Registration page: theorems -/

namespace RegisterPage

open AuthController

theorem jsTrim_empty : jsTrim "" = "" := rfl

theorem ne_empty_of_jsTrim (s : String) (h : jsTrim s ≠ "") : s ≠ "" := by
  rintro rfl
  exact h jsTrim_empty

/-- What `validateForm` accepts. -/
theorem validateForm_iff (formData : FormData) :
    validateForm formData = true ↔
      (jsTrim formData.full_name ≠ ""
        ∧ (jsTrim formData.email ≠ "" ∧ emailPattern.test formData.email = true)
        ∧ (jsTrim formData.username ≠ "" ∧ 3 ≤ jsLength formData.username)
        ∧ (formData.password ≠ "" ∧ 6 ≤ jsLength formData.password)
        ∧ (formData.confirmPassword ≠ "" ∧ formData.password = formData.confirmPassword)) := by
  unfold validateForm newErrors
  simp only [decide_eq_true_eq, List.length_eq_zero, List.append_eq_nil]
  constructor
  · rintro ⟨⟨⟨⟨h1, h2⟩, h3⟩, h4⟩, h5⟩
    refine ⟨?_, ⟨?_, ?_⟩, ⟨?_, ?_⟩, ⟨?_, ?_⟩, ⟨?_, ?_⟩⟩
    · intro h; simp [h] at h1
    · intro h; simp [h] at h2
    · by_contra h
      by_cases ht : jsTrim formData.email = "" <;> simp [ht, h] at h2
    · intro h; simp [h] at h3
    · by_contra h
      by_cases ht : jsTrim formData.username = "" <;> simp [ht, Nat.lt_of_not_le h] at h3
    · intro h; simp [h] at h4
    · by_contra h
      by_cases ht : formData.password = "" <;> simp [ht, Nat.lt_of_not_le h] at h4
    · intro h; simp [h] at h5
    · by_contra h
      by_cases ht : formData.confirmPassword = "" <;> simp [ht, h] at h5
  · rintro ⟨h1, ⟨h2, h2'⟩, ⟨h3, h3'⟩, ⟨h4, h4'⟩, ⟨h5, h5'⟩⟩
    have h4'' : 6 ≤ jsLength formData.confirmPassword := h5' ▸ h4'
    simp [h1, h2, h2', h3, Nat.not_lt.mpr h3', h4, Nat.not_lt.mpr h4', h5, h5', h4'']

/-- C14: client-side validation is at least as strict as server-side
validation.  For every form state that `validateForm` accepts, `handleSubmit`
sends the request built from the form, and `registerUser` answers that request,
in every store and environment, with neither `Please provide all required
fields` nor `Password must be at least 6 characters long`. -/
theorem validateForm_implies_server_validation (formData : FormData)
    (hvalid : validateForm formData = true) :
    handleSubmit formData =
        some { full_name := some formData.full_name, email := some formData.email,
               username := some formData.username, password := some formData.password }
    ∧ ∀ (H : PasswordHasher) (env : Env) (db : Db) (body : RegisterBody),
        handleSubmit formData = some body →
        (registerUser H env db body).res ≠
            { status := 400
              body := [("success", .val (.bool false)),
                       ("message", .val (.str "Please provide all required fields"))] }
        ∧ (registerUser H env db body).res ≠
            { status := 400
              body := [("success", .val (.bool false)),
                       ("message",
                        .val (.str "Password must be at least 6 characters long"))] } := by
  have hsubmit : handleSubmit formData =
      some { full_name := some formData.full_name, email := some formData.email,
             username := some formData.username, password := some formData.password } := by
    simp [handleSubmit, hvalid]
  refine ⟨hsubmit, ?_⟩
  intro H env db body hbody
  rw [hsubmit] at hbody
  cases hbody
  obtain ⟨hname, ⟨hemail, _⟩, ⟨huser, _⟩, ⟨hpw, hlen⟩, _⟩ := (validateForm_iff formData).mp hvalid
  have hname' := ne_empty_of_jsTrim _ hname
  have hemail' := ne_empty_of_jsTrim _ hemail
  have huser' := ne_empty_of_jsTrim _ huser
  rcases registerUserTry_paths H env db
      { full_name := some formData.full_name, email := some formData.email,
        username := some formData.username, password := some formData.password } with
    ⟨hg, _⟩ | ⟨_, password, hpassword, ⟨hshort, _⟩ | ⟨_, hres⟩⟩
  · simp [falsy, hname', hemail', huser', hpw] at hg
  · have hsame : formData.password = password := by simpa using hpassword
    subst hsame
    omega
  · rcases hres with ⟨e, h⟩ | h | h | ⟨res, h, hstatus, _⟩
    · rw [(registerUser_of_error H env db _ e h).1]
      simp [AuthController.serverError]
    · rw [(registerUser_of_ok H env db _ _ h).1]
      simp [AuthController.failure]
    · rw [(registerUser_of_ok H env db _ _ h).1]
      simp [AuthController.failure]
    · rw [(registerUser_of_ok H env db _ _ h).1]
      constructor <;> (intro h'; rw [h'] at hstatus; simp at hstatus)

/-- Witness for C14: Ann's form is accepted and its request passes both
server-side checks. -/
theorem validateForm_implies_server_validation_witness :
    validateForm annForm = true
    ∧ handleSubmit annForm =
        some { full_name := some annForm.full_name, email := some annForm.email,
               username := some annForm.username, password := some annForm.password }
    ∧ ∀ (H : PasswordHasher) (env : Env) (db : Db) (body : RegisterBody),
        handleSubmit annForm = some body →
        (registerUser H env db body).res ≠
            { status := 400
              body := [("success", .val (.bool false)),
                       ("message", .val (.str "Please provide all required fields"))] }
        ∧ (registerUser H env db body).res ≠
            { status := 400
              body := [("success", .val (.bool false)),
                       ("message",
                        .val (.str "Password must be at least 6 characters long"))] } :=
  ⟨by decide, validateForm_implies_server_validation annForm (by decide)⟩

end RegisterPage
